import Mathlib

/-!
# The NFP user service of `core/hle/service/nfp/nfp.cpp`

A shallow embedding of `Service::NFP::Module::Interface` (the holder of the loaded amiibo
image and of the "tag detected" event) and of `IUser` (the per-connection command handlers),
followed by the properties established about them.

Every handler is a function from the interface state and the session state to the new
interface state, the new session state and the reply it builds.
-/

namespace Service.NFP

/-! ## Machine data -/

abbrev u8 := UInt8

/-- Quantities the handlers use whose declarations lie outside `nfp.cpp`: the width of
`size_t` on the host, the layout of `Module::Interface::AmiiboFile` (declared in `nfp.h`)
and the value of `Common::MakeMagic('Y', 'U', 'Z', 'U')`. All sizes and offsets are in bytes. -/
structure Build where
  sizeof_size_t : Nat
  sizeof_AmiiboFile : Nat
  offsetof_uuid : Nat
  sizeof_uuid : Nat
  offsetof_model_info : Nat
  sizeof_model_info : Nat
  device_handle : Nat
deriving DecidableEq, Repr

/-- A 64-bit host with `AmiiboFile` laid out as ten identifier bytes, 0x4a bytes of padding
and a 0x40-byte model block (0x94 bytes in all); used to evaluate the handlers on concrete
inputs. -/
def Build.x64 : Build where
  sizeof_size_t := 8
  sizeof_AmiiboFile := 0x94
  offsetof_uuid := 0
  sizeof_uuid := 10
  offsetof_model_info := 0x54
  sizeof_model_info := 0x40
  device_handle := 0x555A5559

/-- The copy `std::memcpy(dst, src, n)` on byte sequences: the first `n` bytes of `dst` are
replaced by the first `n` bytes of `src` (both are at least `n` long in a defined call). -/
def memcpy (dst src : List u8) (n : Nat) : List u8 :=
  src.take n ++ dst.drop n

/-- Object representation of a `u32_le`: four bytes, least significant first. -/
def u32_le (v : Nat) : List u8 :=
  [UInt8.ofNat (v % 256), UInt8.ofNat (v / 256 % 256),
   UInt8.ofNat (v / 65536 % 256), UInt8.ofNat (v / 16777216 % 256)]

/-- Object representation of a `u16_be`: two bytes, most significant first. -/
def u16_be (v : Nat) : List u8 :=
  [UInt8.ofNat (v / 256 % 256), UInt8.ofNat (v % 256)]

/-- Object representation of a `u32_be`: four bytes, most significant first. -/
def u32_be (v : Nat) : List u8 :=
  [UInt8.ofNat (v / 16777216 % 256), UInt8.ofNat (v / 65536 % 256),
   UInt8.ofNat (v / 256 % 256), UInt8.ofNat (v % 256)]

/-- Object representation of a `u64` on the (little-endian) host. -/
def u64_bytes (v : Nat) : List u8 :=
  (List.range 8).map (fun i => UInt8.ofNat (v / 256 ^ i % 256))

/-! ## Kernel events -/

/-- Modelled from the spec: `Kernel::Event` (core/hle/kernel/event.h), consumed as the opaque
capability create / signal / clear / is_signaled. `signaled` is the flag of the event;
`signal_calls` counts the calls of `Signal()` made on it, so that "signalled exactly once"
can be told from "is signalled". -/
structure Event where
  signaled : Bool
  signal_calls : Nat
deriving DecidableEq, Repr

/-- A freshly created event is not signalled. -/
def Event.Create : Event := ⟨false, 0⟩

def Event.Signal (e : Event) : Event := ⟨true, e.signal_calls + 1⟩

def Event.Clear (e : Event) : Event := { e with signaled := false }

/-- The event makes a thread wait exactly when it is not signalled. -/
def Event.ShouldWait (e : Event) : Bool := !e.signaled

/-! ## `Module::Interface` -/

/-- The object representation of `Module::Interface::AmiiboFile`. -/
structure AmiiboFile where
  raw : List u8
deriving DecidableEq, Repr

/-- The bytes starting at `amiibo.uuid.data()`. -/
def AmiiboFile.uuid_data (B : Build) (a : AmiiboFile) : List u8 :=
  a.raw.drop B.offsetof_uuid

/-- The member `amiibo.uuid`. -/
def AmiiboFile.uuid (B : Build) (a : AmiiboFile) : List u8 :=
  (a.raw.drop B.offsetof_uuid).take B.sizeof_uuid

/-- The member `amiibo.model_info`. -/
def AmiiboFile.model_info (B : Build) (a : AmiiboFile) : List u8 :=
  (a.raw.drop B.offsetof_model_info).take B.sizeof_model_info

/-- Modelled from the spec: the member `amiibo` of `Module::Interface` is declared in `nfp.h`;
before any load it is the default, zero-filled image. -/
def AmiiboFile.default (B : Build) : AmiiboFile :=
  ⟨List.replicate B.sizeof_AmiiboFile 0⟩

structure Interface where
  nfc_tag_load : Event
  amiibo : AmiiboFile
deriving DecidableEq, Repr

/-- The constructor `Module::Interface::Interface`. -/
def Interface.new (B : Build) : Interface where
  nfc_tag_load := Event.Create
  amiibo := AmiiboFile.default B

def Interface.LoadAmiibo (B : Build) (self : Interface) (buffer : List u8) : Interface :=
  if buffer.length < B.sizeof_AmiiboFile then
    self -- Failed to load file
  else
    { amiibo := ⟨buffer.take B.sizeof_AmiiboFile⟩
      nfc_tag_load := self.nfc_tag_load.Signal }

def Interface.GetNFCEvent (self : Interface) : Event := self.nfc_tag_load

def Interface.GetAmiiboBuffer (self : Interface) : AmiiboFile := self.amiibo

/-! ## `IUser`: types -/

inductive ResultCode
  | RESULT_SUCCESS
  | ERR_TAG_FAILED
deriving DecidableEq, Repr

structure TagInfo where
  uuid : List u8
  uuid_length : u8
  padding_0 : List u8
  protocol : Nat
  tag_type : Nat
  padding_1 : List u8
deriving DecidableEq, Repr

/-- The constant `tag_info.uuid.size()` of the `std::array<u8, 10>`. -/
def TagInfo.uuid_size : Nat := 10

/-- The value-initialised `TagInfo tag_info{}`. -/
def TagInfo.zero : TagInfo where
  uuid := List.replicate TagInfo.uuid_size 0
  uuid_length := 0
  padding_0 := List.replicate 0x15 0
  protocol := 0
  tag_type := 0
  padding_1 := List.replicate 0x2c 0

/-- The `sizeof(TagInfo)` bytes at `&tag_info`. -/
def TagInfo.bytes (t : TagInfo) : List u8 :=
  t.uuid ++ [t.uuid_length] ++ t.padding_0 ++ u32_le t.protocol ++ u32_le t.tag_type
    ++ t.padding_1

inductive State
  | NonInitialized
  | Initialized
deriving DecidableEq, Repr

def State.toU32 : State → Nat
  | .NonInitialized => 0
  | .Initialized => 1

inductive DeviceState
  | Initialized
  | SearchingForTag
  | TagFound
  | TagRemoved
  | TagNearby
  | Unknown5
  | Finalized
deriving DecidableEq, Repr

def DeviceState.toU32 : DeviceState → Nat
  | .Initialized => 0
  | .SearchingForTag => 1
  | .TagFound => 2
  | .TagRemoved => 3
  | .TagNearby => 4
  | .Unknown5 => 5
  | .Finalized => 6

structure CommonInfo where
  last_write_year : Nat
  last_write_month : u8
  last_write_day : u8
  write_counter : Nat
  version : Nat
  application_area_size : Nat
  padding_0 : List u8
deriving DecidableEq, Repr

/-- The value-initialised `CommonInfo common_info{}`. -/
def CommonInfo.zero : CommonInfo where
  last_write_year := 0
  last_write_month := 0
  last_write_day := 0
  write_counter := 0
  version := 0
  application_area_size := 0
  padding_0 := List.replicate 0x34 0

/-- The `sizeof(CommonInfo)` bytes at `&common_info`. -/
def CommonInfo.bytes (c : CommonInfo) : List u8 :=
  u16_be c.last_write_year ++ [c.last_write_month, c.last_write_day] ++ u16_be c.write_counter
    ++ u16_be c.version ++ u32_be c.application_area_size ++ c.padding_0

/-- The event objects a reply can carry a copied handle of. -/
inductive EventObject
  | nfc_tag_load
  | deactivate_event
  | availability_change_event
deriving DecidableEq, Repr

/-- What a handler leaves in the request context: the result code and the words pushed after
it, the buffer passed to `WriteBuffer` (if any) and the objects passed to `PushCopyObjects`. -/
structure Reply where
  result : ResultCode
  raw : List Nat := []
  buffer : Option (List u8) := none
  copy_objects : List EventObject := []
deriving DecidableEq, Repr

/-- The data members of `IUser` that change; `device_handle` and `npad_id` are constants. -/
structure IUser where
  has_attached_handle : Bool
  state : State
  device_state : DeviceState
  deactivate_event : Event
  availability_change_event : Event
deriving DecidableEq, Repr

/-- The constructor `IUser::IUser` with the default member initialisers. -/
def IUser.new : IUser where
  has_attached_handle := false
  state := State.NonInitialized
  device_state := DeviceState.Initialized
  deactivate_event := Event.Create
  availability_change_event := Event.Create

def IUser.npad_id : Nat := 0

/-- The state a handler leaves behind, and its reply. -/
structure Outcome where
  nfp : Interface
  user : IUser
  reply : Reply
deriving DecidableEq, Repr

/-! ## `IUser`: command handlers -/

namespace IUser

def Initialize (nfp : Interface) (self : IUser) : Outcome :=
  { nfp := nfp
    user := { self with state := State.Initialized }
    reply := { result := ResultCode.RESULT_SUCCESS } }

def GetState (nfp : Interface) (self : IUser) : Outcome :=
  { nfp := nfp
    user := self
    reply := { result := ResultCode.RESULT_SUCCESS, raw := [self.state.toU32] } }

/-- The popped `array_size` is only logged. -/
def ListDevices (B : Build) (nfp : Interface) (self : IUser) (_array_size : Nat) : Outcome :=
  { nfp := nfp
    user := self
    reply := { result := ResultCode.RESULT_SUCCESS, raw := [1]
               buffer := some (u64_bytes B.device_handle) } }

/-- The popped `dev_handle` is only logged. -/
def GetNpadId (nfp : Interface) (self : IUser) (_dev_handle : Nat) : Outcome :=
  { nfp := nfp
    user := self
    reply := { result := ResultCode.RESULT_SUCCESS, raw := [npad_id] } }

def AttachActivateEvent (nfp : Interface) (self : IUser) (_dev_handle : Nat) : Outcome :=
  { nfp := nfp
    user := { self with has_attached_handle := true }
    reply := { result := ResultCode.RESULT_SUCCESS
               copy_objects := [EventObject.nfc_tag_load] } }

def AttachDeactivateEvent (nfp : Interface) (self : IUser) (_dev_handle : Nat) : Outcome :=
  { nfp := nfp
    user := self
    reply := { result := ResultCode.RESULT_SUCCESS
               copy_objects := [EventObject.deactivate_event] } }

def StopDetection (nfp : Interface) (self : IUser) : Outcome :=
  let self1 : IUser :=
    match self.device_state with
    | DeviceState.TagFound | DeviceState.TagNearby =>
      { self with deactivate_event := self.deactivate_event.Signal
                  device_state := DeviceState.Initialized }
    | DeviceState.SearchingForTag | DeviceState.TagRemoved =>
      { self with device_state := DeviceState.Initialized }
    | _ => self
  { nfp := nfp, user := self1, reply := { result := ResultCode.RESULT_SUCCESS } }

def GetDeviceState (nfp : Interface) (self : IUser) : Outcome :=
  let nfc_event := nfp.GetNFCEvent
  let (nfp1, self1) : Interface × IUser :=
    if !nfc_event.ShouldWait && !self.has_attached_handle then
      ({ nfp with nfc_tag_load := nfc_event.Clear },
       { self with device_state := DeviceState.TagFound })
    else (nfp, self)
  { nfp := nfp1
    user := self1
    reply := { result := ResultCode.RESULT_SUCCESS, raw := [self1.device_state.toU32] } }

def StartDetection (nfp : Interface) (self : IUser) : Outcome :=
  let self1 : IUser :=
    if self.device_state = DeviceState.Initialized
        ∨ self.device_state = DeviceState.TagRemoved then
      { self with device_state := DeviceState.SearchingForTag }
    else self
  { nfp := nfp, user := self1, reply := { result := ResultCode.RESULT_SUCCESS } }

/-- The local `tag_info` as it stands when it is handed to `WriteBuffer`. The copy into
`tag_info.uuid` has length `sizeof(tag_info.uuid.size())`, the width of `size_t`. -/
def GetTagInfo.tag_info (B : Build) (amiibo : AmiiboFile) : TagInfo :=
  let tag_info := TagInfo.zero
  let tag_info := { tag_info with
    uuid := memcpy tag_info.uuid (amiibo.uuid_data B) B.sizeof_size_t }
  let tag_info := { tag_info with uuid_length := UInt8.ofNat (TagInfo.uuid_size % 256) }
  let tag_info := { tag_info with protocol := 1 }
  { tag_info with tag_type := 2 }

def GetTagInfo (B : Build) (nfp : Interface) (self : IUser) : Outcome :=
  let amiibo := nfp.GetAmiiboBuffer
  { nfp := nfp
    user := self
    reply := { result := ResultCode.RESULT_SUCCESS
               buffer := some (GetTagInfo.tag_info B amiibo).bytes } }

def Mount (nfp : Interface) (self : IUser) : Outcome :=
  { nfp := nfp
    user := { self with device_state := DeviceState.TagNearby }
    reply := { result := ResultCode.RESULT_SUCCESS } }

def GetModelInfo (B : Build) (nfp : Interface) (self : IUser) : Outcome :=
  let amiibo := nfp.GetAmiiboBuffer
  { nfp := nfp
    user := self
    reply := { result := ResultCode.RESULT_SUCCESS
               buffer := some (amiibo.model_info B) } }

def Unmount (nfp : Interface) (self : IUser) : Outcome :=
  { nfp := nfp
    user := { self with device_state := DeviceState.TagFound }
    reply := { result := ResultCode.RESULT_SUCCESS } }

def Finalize (nfp : Interface) (self : IUser) : Outcome :=
  { nfp := nfp
    user := { self with device_state := DeviceState.Finalized }
    reply := { result := ResultCode.RESULT_SUCCESS } }

def AttachAvailabilityChangeEvent (nfp : Interface) (self : IUser) : Outcome :=
  { nfp := nfp
    user := self
    reply := { result := ResultCode.RESULT_SUCCESS
               copy_objects := [EventObject.availability_change_event] } }

def GetRegisterInfo (nfp : Interface) (self : IUser) : Outcome :=
  { nfp := nfp, user := self, reply := { result := ResultCode.RESULT_SUCCESS } }

def GetCommonInfo (nfp : Interface) (self : IUser) : Outcome :=
  let common_info := CommonInfo.zero
  let common_info := { common_info with application_area_size := 0 }
  { nfp := nfp
    user := self
    reply := { result := ResultCode.RESULT_SUCCESS, buffer := some common_info.bytes } }

def OpenApplicationArea (nfp : Interface) (self : IUser) : Outcome :=
  { nfp := nfp, user := self, reply := { result := ResultCode.RESULT_SUCCESS } }

def GetApplicationAreaSize (nfp : Interface) (self : IUser) : Outcome :=
  { nfp := nfp, user := self, reply := { result := ResultCode.RESULT_SUCCESS, raw := [0] } }

def GetApplicationArea (nfp : Interface) (self : IUser) : Outcome :=
  { nfp := nfp, user := self, reply := { result := ResultCode.RESULT_SUCCESS, raw := [0] } }

end IUser

/-! ## Requests and runs -/

/-- The requests that reach a handler of `IUser`, with the arguments the handler pops. -/
inductive Command
  | Initialize
  | Finalize
  | ListDevices (array_size : Nat)
  | StartDetection
  | StopDetection
  | Mount
  | Unmount
  | OpenApplicationArea
  | GetApplicationArea
  | GetTagInfo
  | GetRegisterInfo
  | GetCommonInfo
  | GetModelInfo
  | AttachActivateEvent (dev_handle : Nat)
  | AttachDeactivateEvent (dev_handle : Nat)
  | GetState
  | GetDeviceState
  | GetNpadId (dev_handle : Nat)
  | GetApplicationAreaSize
  | AttachAvailabilityChangeEvent
deriving DecidableEq, Repr

/-- The handler registered for each request. -/
def IUser.handle (B : Build) (nfp : Interface) (self : IUser) : Command → Outcome
  | .Initialize => self.Initialize nfp
  | .Finalize => self.Finalize nfp
  | .ListDevices n => self.ListDevices B nfp n
  | .StartDetection => self.StartDetection nfp
  | .StopDetection => self.StopDetection nfp
  | .Mount => self.Mount nfp
  | .Unmount => self.Unmount nfp
  | .OpenApplicationArea => self.OpenApplicationArea nfp
  | .GetApplicationArea => self.GetApplicationArea nfp
  | .GetTagInfo => self.GetTagInfo B nfp
  | .GetRegisterInfo => self.GetRegisterInfo nfp
  | .GetCommonInfo => self.GetCommonInfo nfp
  | .GetModelInfo => self.GetModelInfo B nfp
  | .AttachActivateEvent h => self.AttachActivateEvent nfp h
  | .AttachDeactivateEvent h => self.AttachDeactivateEvent nfp h
  | .GetState => self.GetState nfp
  | .GetDeviceState => self.GetDeviceState nfp
  | .GetNpadId h => self.GetNpadId nfp h
  | .GetApplicationAreaSize => self.GetApplicationAreaSize nfp
  | .AttachAvailabilityChangeEvent => self.AttachAvailabilityChangeEvent nfp

/-- One thing that happens to an interface and a session on it: a request served by the
session, or a call of `LoadAmiibo` from outside. -/
inductive Action
  | request (c : Command)
  | LoadAmiibo (buffer : List u8)
deriving DecidableEq, Repr

/-- The interface together with one session created on it. -/
structure System where
  nfp : Interface
  user : IUser
deriving DecidableEq, Repr

def System.step (B : Build) (s : System) : Action → System
  | .request c => let o := s.user.handle B s.nfp c; { nfp := o.nfp, user := o.user }
  | .LoadAmiibo buffer => { s with nfp := s.nfp.LoadAmiibo B buffer }

def System.run (B : Build) (s : System) (as : List Action) : System :=
  as.foldl (System.step B) s

/-- The action is an `AttachActivateEvent` request. -/
def Action.isAttachActivate : Action → Bool
  | .request (.AttachActivateEvent _) => true
  | _ => false


/-- The buffer of the action when it is a `LoadAmiibo` that gets past the size check. -/
def Action.loadedBuffer (B : Build) : Action → Option (List u8)
  | .LoadAmiibo buffer => if buffer.length < B.sizeof_AmiiboFile then none else some buffer
  | _ => none

/-- The last buffer of sufficient length handed to `LoadAmiibo` in a run, if there is one. -/
def lastLoaded (B : Build) (as : List Action) : Option (List u8) :=
  (as.filterMap (Action.loadedBuffer B)).getLast?

/-- The action is an `Initialize` request. -/
def Action.isInitialize : Action → Bool
  | .request .Initialize => true
  | _ => false

/-! ## The table of handlers -/

/-- An entry of the table `functions` in the constructor of `IUser`: the command index, the
member function registered for it (`none` for `nullptr`) and the name of the command. The
member function is given the scalar argument of the request, which it pops or ignores. -/
structure FunctionInfo where
  expected_header : Nat
  handler_callback : Option (Build → Interface → IUser → Nat → Outcome)
  name : String

/-- The table `functions` registered by `IUser::IUser`. -/
def IUser.functions : List FunctionInfo :=
  [ ⟨0, some (fun _ nfp self _ => self.Initialize nfp), "Initialize"⟩,
    ⟨1, some (fun _ nfp self _ => self.Finalize nfp), "Finalize"⟩,
    ⟨2, some (fun B nfp self arg => self.ListDevices B nfp arg), "ListDevices"⟩,
    ⟨3, some (fun _ nfp self _ => self.StartDetection nfp), "StartDetection"⟩,
    ⟨4, some (fun _ nfp self _ => self.StopDetection nfp), "StopDetection"⟩,
    ⟨5, some (fun _ nfp self _ => self.Mount nfp), "Mount"⟩,
    ⟨6, some (fun _ nfp self _ => self.Unmount nfp), "Unmount"⟩,
    ⟨7, some (fun _ nfp self _ => self.OpenApplicationArea nfp), "OpenApplicationArea"⟩,
    ⟨8, some (fun _ nfp self _ => self.GetApplicationArea nfp), "GetApplicationArea"⟩,
    ⟨9, none, "SetApplicationArea"⟩,
    ⟨10, none, "Flush"⟩,
    ⟨11, none, "Restore"⟩,
    ⟨12, none, "CreateApplicationArea"⟩,
    ⟨13, some (fun B nfp self _ => self.GetTagInfo B nfp), "GetTagInfo"⟩,
    ⟨14, some (fun _ nfp self _ => self.GetRegisterInfo nfp), "GetRegisterInfo"⟩,
    ⟨15, some (fun _ nfp self _ => self.GetCommonInfo nfp), "GetCommonInfo"⟩,
    ⟨16, some (fun B nfp self _ => self.GetModelInfo B nfp), "GetModelInfo"⟩,
    ⟨17, some (fun _ nfp self arg => self.AttachActivateEvent nfp arg), "AttachActivateEvent"⟩,
    ⟨18, some (fun _ nfp self arg => self.AttachDeactivateEvent nfp arg),
      "AttachDeactivateEvent"⟩,
    ⟨19, some (fun _ nfp self _ => self.GetState nfp), "GetState"⟩,
    ⟨20, some (fun _ nfp self _ => self.GetDeviceState nfp), "GetDeviceState"⟩,
    ⟨21, some (fun _ nfp self arg => self.GetNpadId nfp arg), "GetNpadId"⟩,
    ⟨22, some (fun _ nfp self _ => self.GetApplicationAreaSize nfp), "GetApplicationAreaSize"⟩,
    ⟨23, some (fun _ nfp self _ => self.AttachAvailabilityChangeEvent nfp),
      "AttachAvailabilityChangeEvent"⟩,
    ⟨24, none, "RecreateApplicationArea"⟩ ]

/-- What becomes of a request whose index has an entry in the table: a handler ran, or the
command of that name is reported as unimplemented with the interface and the session it
was sent to. -/
inductive Dispatch
  | invoked (o : Outcome)
  | unimplemented (nfp : Interface) (user : IUser) (name : String)

/-- Modelled from the spec: the dispatch of `ServiceFramework` over the registered table
(core/hle/service/service.h and service.cpp are not among the sources). An index whose entry
has no handler reports the distinct "unimplemented command" outcome and touches nothing; an
index whose entry has a handler is routed to that handler. The spec is silent about an index
with no entry in the table: the result is `none` there. -/
def IUser.InvokeRequest (B : Build) (nfp : Interface) (self : IUser) (command argument : Nat) :
    Option Dispatch :=
  match IUser.functions.find? (fun info => info.expected_header == command) with
  | none => none
  | some info =>
    match info.handler_callback with
    | none => some (Dispatch.unimplemented nfp self info.name)
    | some handler => some (Dispatch.invoked (handler B nfp self argument))

/-! ## Several sessions on one interface -/

/-- The interface with every session created on it so far, oldest first. Each `IUser` holds
a reference to the one interface and owns its two events. -/
structure World where
  nfp : Interface
  sessions : List IUser
deriving DecidableEq, Repr

/-- The interface right after its construction, before any session is requested. -/
def World.new (B : Build) : World where
  nfp := Interface.new B
  sessions := []

/-- The factory `Module::Interface::CreateUserInterface`: a new `IUser` is constructed on the
interface and handed out with `RESULT_SUCCESS`. -/
def World.CreateUserInterface (w : World) : World × Reply :=
  ({ w with sessions := w.sessions ++ [IUser.new] }, { result := ResultCode.RESULT_SUCCESS })

/-- A request served by the session of the given position; there is no reply when no session
has that position. -/
def World.request (B : Build) (w : World) (session : Nat) (c : Command) :
    World × Option Reply :=
  match w.sessions[session]? with
  | none => (w, none)
  | some u =>
    let o := u.handle B w.nfp c
    ({ nfp := o.nfp, sessions := w.sessions.set session o.user }, some o.reply)

def World.LoadAmiibo (B : Build) (w : World) (buffer : List u8) : World :=
  { w with nfp := w.nfp.LoadAmiibo B buffer }

/-- One thing that happens to the interface and its sessions. -/
inductive WorldAction
  | CreateUserInterface
  | request (session : Nat) (c : Command)
  | LoadAmiibo (buffer : List u8)
deriving DecidableEq, Repr

def World.step (B : Build) (w : World) : WorldAction → World
  | .CreateUserInterface => w.CreateUserInterface.1
  | .request session c => (w.request B session c).1
  | .LoadAmiibo buffer => w.LoadAmiibo B buffer

def World.run (B : Build) (w : World) (as : List WorldAction) : World :=
  as.foldl (World.step B) w

/-- The action is a `LoadAmiibo` that gets past the size check. -/
def WorldAction.isLoaded (B : Build) : WorldAction → Bool
  | .LoadAmiibo buffer => !decide (buffer.length < B.sizeof_AmiiboFile)
  | _ => false

/-- The action is a `GetDeviceState` request, on whichever session. -/
def WorldAction.isGetDeviceState : WorldAction → Bool
  | .request _ .GetDeviceState => true
  | _ => false

/-- The action is an `AttachActivateEvent` request on the session of position `k`. -/
def WorldAction.isAttachActivateOn (k : Nat) : WorldAction → Bool
  | .request session (.AttachActivateEvent _) => session == k
  | _ => false

/-- The detection states other than `TagRemoved` and `Unknown5`. -/
def DeviceState.isAssigned : DeviceState → Bool
  | .TagRemoved => false
  | .Unknown5 => false
  | _ => true

/-! ## Detection state machine -/

/-- C1: `StartDetection` moves a session whose detection state is `Initialized` or `TagRemoved`
to `SearchingForTag`, and leaves the detection state as it is from each other state
(`SearchingForTag`, `TagFound`, `TagNearby`, `Finalized`, and the unnamed value 5); whatever
the rest of the session and the interface hold. -/
theorem StartDetection_device_state (nfp : Interface) (u : IUser) :
    (IUser.StartDetection nfp { u with device_state := .Initialized }).user.device_state
        = .SearchingForTag
    ∧ (IUser.StartDetection nfp { u with device_state := .TagRemoved }).user.device_state
        = .SearchingForTag
    ∧ (IUser.StartDetection nfp { u with device_state := .SearchingForTag }).user.device_state
        = .SearchingForTag
    ∧ (IUser.StartDetection nfp { u with device_state := .TagFound }).user.device_state
        = .TagFound
    ∧ (IUser.StartDetection nfp { u with device_state := .TagNearby }).user.device_state
        = .TagNearby
    ∧ (IUser.StartDetection nfp { u with device_state := .Finalized }).user.device_state
        = .Finalized
    ∧ (IUser.StartDetection nfp { u with device_state := .Unknown5 }).user.device_state
        = .Unknown5 := by
  refine ⟨?_, ?_, ?_, ?_, ?_, ?_, ?_⟩ <;> simp [IUser.StartDetection]

/-- C2: `StopDetection` from `TagFound` or `TagNearby` calls `Signal` on the session's
deactivation event once (the event ends signalled and its count of calls grows by one) and
sets the detection state to `Initialized`; from `SearchingForTag` or `TagRemoved` it sets the
detection state to `Initialized` and leaves the deactivation event as it was; from
`Initialized` or `Finalized` the whole session, the deactivation event included, is as
before. -/
theorem StopDetection_cases (nfp : Interface) (u : IUser) :
    ((IUser.StopDetection nfp { u with device_state := .TagFound }).user
        = { u with device_state := .Initialized
                   deactivate_event := ⟨true, u.deactivate_event.signal_calls + 1⟩ })
    ∧ ((IUser.StopDetection nfp { u with device_state := .TagNearby }).user
        = { u with device_state := .Initialized
                   deactivate_event := ⟨true, u.deactivate_event.signal_calls + 1⟩ })
    ∧ ((IUser.StopDetection nfp { u with device_state := .SearchingForTag }).user
        = { u with device_state := .Initialized })
    ∧ ((IUser.StopDetection nfp { u with device_state := .TagRemoved }).user
        = { u with device_state := .Initialized })
    ∧ ((IUser.StopDetection nfp { u with device_state := .Initialized }).user
        = { u with device_state := .Initialized })
    ∧ ((IUser.StopDetection nfp { u with device_state := .Finalized }).user
        = { u with device_state := .Finalized }) := by
  refine ⟨?_, ?_, ?_, ?_, ?_, ?_⟩ <;> simp [IUser.StopDetection, Event.Signal]

/-- C3: whatever the detection state before, `Mount` leaves the session in `TagNearby` and
`Unmount` leaves it in `TagFound`. -/
theorem Mount_Unmount_device_state (nfp : Interface) (u : IUser) :
    (u.Mount nfp).user.device_state = .TagNearby
    ∧ (u.Unmount nfp).user.device_state = .TagFound := by
  simp [IUser.Mount, IUser.Unmount]


/-! ## The activation flag and `GetDeviceState` -/

/-- Every handler other than `AttachActivateEvent` leaves `has_attached_handle` as it is. -/
theorem step_flag_of_not_attach (B : Build) (s : System) (a : Action)
    (ha : a.isAttachActivate = false) :
    (s.step B a).user.has_attached_handle = s.user.has_attached_handle := by
  cases a with
  | LoadAmiibo buffer => rfl
  | request c =>
    cases c <;> first
      | rfl
      | (simp only [System.step, IUser.handle, IUser.StopDetection]
         split <;> rfl)
      | (simp only [System.step, IUser.handle, IUser.StartDetection]
         split <;> rfl)
      | (simp only [System.step, IUser.handle, IUser.GetDeviceState]
         split <;> rfl)
      | (simp [Action.isAttachActivate] at ha)

/-- No handler resets `has_attached_handle`. -/
theorem step_flag_of_set (B : Build) (s : System) (a : Action)
    (hs : s.user.has_attached_handle = true) :
    (s.step B a).user.has_attached_handle = true := by
  by_cases ha : a.isAttachActivate = false
  · rw [step_flag_of_not_attach B s a ha]; exact hs
  · cases a with
    | LoadAmiibo buffer => simp [Action.isAttachActivate] at ha
    | request c => cases c <;> first | rfl | (simp [Action.isAttachActivate] at ha)

theorem run_flag_of_not_attach (B : Build) (as : List Action) (s : System)
    (hno : ∀ a ∈ as, a.isAttachActivate = false) :
    (s.run B as).user.has_attached_handle = s.user.has_attached_handle := by
  induction as generalizing s with
  | nil => rfl
  | cons a as ih =>
    have h1 := step_flag_of_not_attach B s a (hno a (List.mem_cons_self a as))
    have h2 := ih (s.step B a) (fun b hb => hno b (List.mem_cons_of_mem a hb))
    simpa [System.run, h1] using h2

theorem run_flag_of_set (B : Build) (as : List Action) (s : System)
    (hs : s.user.has_attached_handle = true) :
    (s.run B as).user.has_attached_handle = true := by
  induction as generalizing s with
  | nil => exact hs
  | cons a as ih => exact ih (s.step B a) (step_flag_of_set B s a hs)

/-- `GetDeviceState` on a session without an attached handle, with the event signalled. -/
theorem GetDeviceState_of_signaled (nfp : Interface) (u : IUser)
    (hf : u.has_attached_handle = false) (hsig : nfp.nfc_tag_load.signaled = true) :
    u.GetDeviceState nfp =
      { nfp := { nfp with nfc_tag_load := nfp.nfc_tag_load.Clear }
        user := { u with device_state := .TagFound }
        reply := { result := .RESULT_SUCCESS, raw := [2] } } := by
  simp [IUser.GetDeviceState, Interface.GetNFCEvent, Event.ShouldWait, hf, hsig,
    DeviceState.toU32]

/-- `GetDeviceState` with the event not signalled, or with an attached handle. -/
theorem GetDeviceState_of_idle (nfp : Interface) (u : IUser)
    (h : nfp.nfc_tag_load.signaled = false ∨ u.has_attached_handle = true) :
    u.GetDeviceState nfp =
      { nfp := nfp, user := u
        reply := { result := .RESULT_SUCCESS, raw := [u.device_state.toU32] } } := by
  rcases h with h | h <;>
    simp [IUser.GetDeviceState, Interface.GetNFCEvent, Event.ShouldWait, h]


/-- C4: take a session from its creation through any requests and loads among which there is
no `AttachActivateEvent`. If the tag-detected event of the interface is then signalled,
`GetDeviceState` clears that event, sets the detection state to `TagFound` and returns
`TagFound` (the word 2) with success; a second `GetDeviceState` right after returns `TagFound`
again and leaves the session and the interface, event included, exactly as the first call left
them. -/
theorem GetDeviceState_observes_signal (B : Build) (nfp0 : Interface) (as : List Action)
    (hno : ∀ a ∈ as, a.isAttachActivate = false)
    (hsig : (System.run B ⟨nfp0, IUser.new⟩ as).nfp.nfc_tag_load.signaled = true) :
    let s := System.run B ⟨nfp0, IUser.new⟩ as
    let o1 := s.user.GetDeviceState s.nfp
    let o2 := o1.user.GetDeviceState o1.nfp
    o1.nfp.nfc_tag_load.signaled = false
    ∧ o1.user.device_state = .TagFound
    ∧ o1.reply.result = .RESULT_SUCCESS
    ∧ o1.reply.raw = [DeviceState.TagFound.toU32]
    ∧ o2.reply.result = .RESULT_SUCCESS
    ∧ o2.reply.raw = [DeviceState.TagFound.toU32]
    ∧ o2.user = o1.user
    ∧ o2.nfp = o1.nfp := by
  intro s o1 o2
  have hf : s.user.has_attached_handle = false :=
    run_flag_of_not_attach B as ⟨nfp0, IUser.new⟩ hno
  have h1 : o1 = _ := GetDeviceState_of_signaled s.nfp s.user hf hsig
  have h2 : o2 = _ := GetDeviceState_of_idle o1.nfp o1.user (Or.inl (by rw [h1]; rfl))
  rw [h2, h1]
  simp [Event.Clear, DeviceState.toU32]

/-- A run without `AttachActivateEvent`: detection is started on a new session and an image
of full size is loaded. -/
theorem GetDeviceState_observes_signal_witness :
    (∀ a ∈ [Action.request .StartDetection, Action.LoadAmiibo (List.replicate 0x94 7)],
        a.isAttachActivate = false)
    ∧ (System.run Build.x64 ⟨Interface.new Build.x64, IUser.new⟩
        [Action.request .StartDetection,
         Action.LoadAmiibo (List.replicate 0x94 7)]).nfp.nfc_tag_load.signaled = true
    ∧ ((System.run Build.x64 ⟨Interface.new Build.x64, IUser.new⟩
        [Action.request .StartDetection,
         Action.LoadAmiibo (List.replicate 0x94 7)]).user.GetDeviceState
          (System.run Build.x64 ⟨Interface.new Build.x64, IUser.new⟩
            [Action.request .StartDetection,
             Action.LoadAmiibo (List.replicate 0x94 7)]).nfp).reply.raw = [2] :=
  have h1 : ∀ a ∈ [Action.request .StartDetection, Action.LoadAmiibo (List.replicate 0x94 7)],
      a.isAttachActivate = false := by
    intro a ha
    simp only [List.mem_cons, List.mem_singleton, List.not_mem_nil, or_false] at ha
    rcases ha with rfl | rfl <;> rfl
  have h2 : (System.run Build.x64 ⟨Interface.new Build.x64, IUser.new⟩
        [Action.request .StartDetection,
         Action.LoadAmiibo (List.replicate 0x94 7)]).nfp.nfc_tag_load.signaled = true := by
    simp [System.run, System.step, Interface.LoadAmiibo, Build.x64, Event.Signal]
  ⟨h1, h2, (GetDeviceState_observes_signal Build.x64 (Interface.new Build.x64)
      [Action.request .StartDetection, Action.LoadAmiibo (List.replicate 0x94 7)] h1 h2).2.2.2.1⟩

/-- C5: once `AttachActivateEvent` has been served on a session, then after any further
requests and loads `GetDeviceState` returns the detection state the session has at that
moment, and leaves the session and the interface as they are; in particular it does not clear
the tag-detected event, signalled or not. -/
theorem GetDeviceState_after_AttachActivateEvent (B : Build) (s : System) (dev_handle : Nat)
    (as : List Action) :
    let s1 := System.run B (s.step B (.request (.AttachActivateEvent dev_handle))) as
    let o := s1.user.GetDeviceState s1.nfp
    o.reply.result = .RESULT_SUCCESS
    ∧ o.reply.raw = [s1.user.device_state.toU32]
    ∧ o.user = s1.user
    ∧ o.nfp = s1.nfp := by
  intro s1 o
  have hf : s1.user.has_attached_handle = true :=
    run_flag_of_set B as _ rfl
  have h : o = _ := GetDeviceState_of_idle s1.nfp s1.user (Or.inr hf)
  rw [h]
  simp


/-! ## `LoadAmiibo` -/

/-- No request handler writes to the stored image. -/
theorem handle_amiibo (B : Build) (nfp : Interface) (u : IUser) (c : Command) :
    (u.handle B nfp c).nfp.amiibo = nfp.amiibo := by
  cases c <;> first
    | rfl
    | (simp only [IUser.handle, IUser.GetDeviceState]
       split <;> rfl)

theorem run_append_singleton (B : Build) (s : System) (as : List Action) (a : Action) :
    s.run B (as ++ [a]) = (s.run B as).step B a := by
  simp [System.run, List.foldl_append]

theorem lastLoaded_append_singleton (B : Build) (as : List Action) (a : Action) :
    lastLoaded B (as ++ [a]) =
      match a.loadedBuffer B with
      | some b => some b
      | none => lastLoaded B as := by
  unfold lastLoaded
  rw [List.filterMap_append]
  cases h : a.loadedBuffer B with
  | none => simp [List.filterMap, h]
  | some b => simp [List.filterMap, h]

/-- The stored image after a run is that of the last buffer of sufficient length. -/
theorem run_amiibo (B : Build) (u : IUser) (as : List Action) :
    (System.run B ⟨Interface.new B, u⟩ as).nfp.amiibo =
      match lastLoaded B as with
      | some b => ⟨b.take B.sizeof_AmiiboFile⟩
      | none => AmiiboFile.default B := by
  induction as using List.reverseRecOn with
  | nil => rfl
  | append_singleton as a ih =>
    rw [run_append_singleton, lastLoaded_append_singleton]
    cases a with
    | request c =>
      simp only [System.step, Action.loadedBuffer, handle_amiibo]
      exact ih
    | LoadAmiibo buffer =>
      by_cases hlen : buffer.length < B.sizeof_AmiiboFile
      · simp only [System.step, Action.loadedBuffer, Interface.LoadAmiibo, hlen, if_true]
        exact ih
      · simp [System.step, Action.loadedBuffer, Interface.LoadAmiibo, hlen]

/-- C6: a buffer shorter than `sizeof(AmiiboFile)`, the empty one included, is dropped by
`LoadAmiibo`: the interface is exactly as before, so the stored image keeps every byte and the
tag-detected event keeps its signalled status (and sees no call of `Signal`). -/
theorem LoadAmiibo_short (B : Build) (nfp : Interface) (buffer : List u8)
    (hlen : buffer.length < B.sizeof_AmiiboFile) :
    (nfp.LoadAmiibo B buffer).GetAmiiboBuffer.raw = nfp.GetAmiiboBuffer.raw
    ∧ (nfp.LoadAmiibo B buffer).GetNFCEvent.signaled = nfp.GetNFCEvent.signaled
    ∧ nfp.LoadAmiibo B buffer = nfp := by
  simp [Interface.LoadAmiibo, hlen]

/-- A buffer one byte short of the image size, offered to an interface that holds a loaded
image. -/
theorem LoadAmiibo_short_witness :
    (List.replicate 0x93 (1 : u8)).length < Build.x64.sizeof_AmiiboFile
    ∧ ((Interface.new Build.x64).LoadAmiibo Build.x64 (List.replicate 0x94 9)).LoadAmiibo
        Build.x64 (List.replicate 0x93 1)
      = (Interface.new Build.x64).LoadAmiibo Build.x64 (List.replicate 0x94 9) :=
  have h : (List.replicate 0x93 (1 : u8)).length < Build.x64.sizeof_AmiiboFile := by
    simp [Build.x64]
  ⟨h, (LoadAmiibo_short Build.x64
        ((Interface.new Build.x64).LoadAmiibo Build.x64 (List.replicate 0x94 9))
        (List.replicate 0x93 1) h).2.2⟩

/-- C7: for a buffer of at least `sizeof(AmiiboFile)` bytes, after `LoadAmiibo` the stored
image is the first `sizeof(AmiiboFile)` bytes of the buffer and the tag-detected event is
signalled; the result is the same with any other bytes after that prefix and from any other
interface state; and after any run of requests and loads from a new interface, the stored
image is that of the last buffer of sufficient length, or the default image when there is
none. -/
theorem LoadAmiibo_full (B : Build) (nfp : Interface) (buffer : List u8)
    (hlen : B.sizeof_AmiiboFile ≤ buffer.length) :
    (nfp.LoadAmiibo B buffer).GetAmiiboBuffer = ⟨buffer.take B.sizeof_AmiiboFile⟩
    ∧ (nfp.LoadAmiibo B buffer).GetNFCEvent.signaled = true
    ∧ (∀ (nfp1 : Interface) (rest : List u8),
        (nfp1.LoadAmiibo B (buffer.take B.sizeof_AmiiboFile ++ rest)).GetAmiiboBuffer
          = (nfp.LoadAmiibo B buffer).GetAmiiboBuffer)
    ∧ (∀ (u : IUser) (as : List Action),
        (System.run B ⟨Interface.new B, u⟩ as).nfp.GetAmiiboBuffer =
          match lastLoaded B as with
          | some b => ⟨b.take B.sizeof_AmiiboFile⟩
          | none => AmiiboFile.default B) := by
  have hnot : ¬ buffer.length < B.sizeof_AmiiboFile := Nat.not_lt.mpr hlen
  refine ⟨?_, ?_, ?_, ?_⟩
  · simp [Interface.LoadAmiibo, Interface.GetAmiiboBuffer, hnot]
  · simp [Interface.LoadAmiibo, Interface.GetNFCEvent, Event.Signal, hnot]
  · intro nfp1 rest
    have hl : (buffer.take B.sizeof_AmiiboFile).length = B.sizeof_AmiiboFile := by
      simp [List.length_take, hlen]
    have hnot1 : ¬ (buffer.take B.sizeof_AmiiboFile ++ rest).length < B.sizeof_AmiiboFile := by
      rw [List.length_append, hl]; omega
    simp only [Interface.LoadAmiibo, Interface.GetAmiiboBuffer, hnot, hnot1, if_false]
    congr 1
    rw [List.take_append_of_le_length (Nat.le_of_eq hl.symm)]
    simp
  · intro u as
    exact run_amiibo B u as


/-- A buffer that is longer than the image, offered to a new interface. -/
theorem LoadAmiibo_full_witness :
    Build.x64.sizeof_AmiiboFile ≤ (List.replicate 0x94 (5 : u8) ++ [1, 2, 3]).length
    ∧ ((Interface.new Build.x64).LoadAmiibo Build.x64
        (List.replicate 0x94 5 ++ [1, 2, 3])).GetAmiiboBuffer
      = ⟨(List.replicate 0x94 (5 : u8) ++ [1, 2, 3]).take Build.x64.sizeof_AmiiboFile⟩ :=
  have h : Build.x64.sizeof_AmiiboFile ≤ (List.replicate 0x94 (5 : u8) ++ [1, 2, 3]).length := by
    simp [Build.x64]
  ⟨h, (LoadAmiibo_full Build.x64 (Interface.new Build.x64)
        (List.replicate 0x94 5 ++ [1, 2, 3]) h).1⟩

/-! ## `GetTagInfo` -/

/-- The bytes `GetTagInfo` hands to `WriteBuffer`, field by field. -/
theorem GetTagInfo_tag_info_bytes (B : Build) (a : AmiiboFile) :
    (IUser.GetTagInfo.tag_info B a).bytes =
      ((a.uuid_data B).take B.sizeof_size_t ++ (List.replicate 10 0).drop B.sizeof_size_t)
        ++ [10] ++ List.replicate 0x15 0 ++ [1, 0, 0, 0] ++ [2, 0, 0, 0]
        ++ List.replicate 0x2c 0 := by
  have e1 : UInt8.ofNat (10 % 256) = 10 := by decide
  have e2 : u32_le 1 = [1, 0, 0, 0] := by decide
  have e3 : u32_le 2 = [2, 0, 0, 0] := by decide
  simp only [IUser.GetTagInfo.tag_info, TagInfo.bytes, TagInfo.zero, memcpy,
    TagInfo.uuid_size, e1, e2, e3]

/-- With no image loaded, the copy into `tag_info.uuid` moves zero bytes over zero bytes. -/
theorem GetTagInfo_tag_info_default (B : Build) (h1 : B.sizeof_size_t ≤ 10)
    (h2 : B.offsetof_uuid + B.sizeof_size_t ≤ B.sizeof_AmiiboFile) :
    (IUser.GetTagInfo.tag_info B (AmiiboFile.default B)).bytes =
      List.replicate 10 0 ++ [10] ++ List.replicate 0x15 0 ++ [1, 0, 0, 0] ++ [2, 0, 0, 0]
        ++ List.replicate 0x2c 0 := by
  rw [GetTagInfo_tag_info_bytes]
  have h : (((AmiiboFile.default B).uuid_data B).take B.sizeof_size_t
      ++ (List.replicate 10 (0 : u8)).drop B.sizeof_size_t) = List.replicate 10 0 := by
    simp only [AmiiboFile.uuid_data, AmiiboFile.default, List.drop_replicate,
      List.take_replicate, List.append_replicate_replicate]
    congr 1
    omega
  rw [h]


/-- C8: on a 64-bit host, with an image whose identifier is the bytes 1 to 10, the identifier
field of the record written by `GetTagInfo` holds the first eight of them followed by two
zero bytes: the copy has the length `sizeof(tag_info.uuid.size())`, not `tag_info.uuid.size()`,
so the last two identifier bytes of the image never reach the record. -/
theorem GetTagInfo_uuid_truncated :
    ((Interface.new Build.x64).LoadAmiibo Build.x64
        ([1, 2, 3, 4, 5, 6, 7, 8, 9, 10] ++ List.replicate 0x8a 0)).GetAmiiboBuffer.uuid Build.x64
      = [1, 2, 3, 4, 5, 6, 7, 8, 9, 10]
    ∧ ((IUser.new.GetTagInfo Build.x64
          ((Interface.new Build.x64).LoadAmiibo Build.x64
            ([1, 2, 3, 4, 5, 6, 7, 8, 9, 10] ++ List.replicate 0x8a 0))).reply.buffer.map
        (List.take 10))
      = some [1, 2, 3, 4, 5, 6, 7, 8, 0, 0] := by
  constructor
  · simp [Interface.LoadAmiibo, Interface.GetAmiiboBuffer, AmiiboFile.uuid, Build.x64]
  · simp [IUser.GetTagInfo, GetTagInfo_tag_info_bytes, Interface.LoadAmiibo,
      Interface.GetAmiiboBuffer, AmiiboFile.uuid_data, Build.x64]

/-- C9: on a 64-bit host, with an image made of 0x94 bytes 0xff, `GetTagInfo` writes 0x54
bytes: 0xff at the offsets 0x00 to 0x07, zero at 0x08 and 0x09, the length 10 at 0x0a, zero
from 0x0b to 0x1f, the protocol 1 and the tag type 2 in little-endian order at 0x20 and 0x24,
zero from 0x28 to 0x53. All of the layout is as documented except the offsets 0x08 and 0x09,
which do not hold the last two identifier bytes (0xff) of the image. -/
theorem GetTagInfo_layout_at_ff :
    ((Interface.new Build.x64).LoadAmiibo Build.x64
        (List.replicate 0x94 0xff)).GetAmiiboBuffer.uuid Build.x64
      = List.replicate 10 0xff
    ∧ (IUser.new.GetTagInfo Build.x64
          ((Interface.new Build.x64).LoadAmiibo Build.x64
            (List.replicate 0x94 0xff))).reply.buffer
      = some (List.replicate 8 0xff ++ [0, 0] ++ [10] ++ List.replicate 0x15 0
          ++ [1, 0, 0, 0] ++ [2, 0, 0, 0] ++ List.replicate 0x2c 0)
    ∧ (List.replicate 8 (0xff : u8) ++ [0, 0] ++ [10] ++ List.replicate 0x15 0
          ++ [1, 0, 0, 0] ++ [2, 0, 0, 0] ++ List.replicate 0x2c 0).length = 0x54 := by
  refine ⟨?_, ?_, ?_⟩
  · simp [Interface.LoadAmiibo, Interface.GetAmiiboBuffer, AmiiboFile.uuid, Build.x64]
  · simp [IUser.GetTagInfo, GetTagInfo_tag_info_bytes, Interface.LoadAmiibo,
      Interface.GetAmiiboBuffer, AmiiboFile.uuid_data, Build.x64]
  · simp

/-- C10: as long as no `LoadAmiibo` has got past the size check, `GetTagInfo` on a session in
any state returns success and writes the same 0x54 bytes: ten zero bytes of identifier, the
length 10, 0x15 zero bytes, the protocol 1 and the tag type 2 in little-endian order, and 0x2c
zero bytes. The copy is taken to stay inside `tag_info.uuid` and inside the image. -/
theorem GetTagInfo_before_any_load (B : Build) (h1 : B.sizeof_size_t ≤ 10)
    (h2 : B.offsetof_uuid + B.sizeof_size_t ≤ B.sizeof_AmiiboFile)
    (u0 : IUser) (as : List Action) (hno : lastLoaded B as = none) :
    let s := System.run B ⟨Interface.new B, u0⟩ as
    let o := s.user.GetTagInfo B s.nfp
    o.reply.result = .RESULT_SUCCESS
    ∧ o.reply.buffer = some (List.replicate 10 0 ++ [10] ++ List.replicate 0x15 0
        ++ [1, 0, 0, 0] ++ [2, 0, 0, 0] ++ List.replicate 0x2c 0)
    ∧ (List.replicate 10 (0 : u8) ++ [10] ++ List.replicate 0x15 0
        ++ [1, 0, 0, 0] ++ [2, 0, 0, 0] ++ List.replicate 0x2c 0).length = 0x54 := by
  intro s o
  have ha : s.nfp.amiibo = AmiiboFile.default B := by
    have h := run_amiibo B u0 as
    rw [hno] at h
    exact h
  refine ⟨rfl, ?_, by simp⟩
  show some (IUser.GetTagInfo.tag_info B s.nfp.GetAmiiboBuffer).bytes = _
  rw [Interface.GetAmiiboBuffer, ha, GetTagInfo_tag_info_default B h1 h2]

/-- A run in which detection is started and stopped and a load of three bytes is dropped. -/
theorem GetTagInfo_before_any_load_witness :
    Build.x64.sizeof_size_t ≤ 10
    ∧ Build.x64.offsetof_uuid + Build.x64.sizeof_size_t ≤ Build.x64.sizeof_AmiiboFile
    ∧ lastLoaded Build.x64 [Action.request .StartDetection, Action.LoadAmiibo [1, 2, 3],
        Action.request .StopDetection] = none
    ∧ ((System.run Build.x64 ⟨Interface.new Build.x64, IUser.new⟩
          [Action.request .StartDetection, Action.LoadAmiibo [1, 2, 3],
           Action.request .StopDetection]).user.GetTagInfo Build.x64
        (System.run Build.x64 ⟨Interface.new Build.x64, IUser.new⟩
          [Action.request .StartDetection, Action.LoadAmiibo [1, 2, 3],
           Action.request .StopDetection]).nfp).reply.buffer
      = some (List.replicate 10 0 ++ [10] ++ List.replicate 0x15 0
        ++ [1, 0, 0, 0] ++ [2, 0, 0, 0] ++ List.replicate 0x2c 0) :=
  have h1 : Build.x64.sizeof_size_t ≤ 10 := by decide
  have h2 : Build.x64.offsetof_uuid + Build.x64.sizeof_size_t
      ≤ Build.x64.sizeof_AmiiboFile := by decide
  have h3 : lastLoaded Build.x64 [Action.request .StartDetection, Action.LoadAmiibo [1, 2, 3],
        Action.request .StopDetection] = none := by decide
  ⟨h1, h2, h3, (GetTagInfo_before_any_load Build.x64 h1 h2 IUser.new
      [Action.request .StartDetection, Action.LoadAmiibo [1, 2, 3],
       Action.request .StopDetection] h3).2.1⟩


/-! ## Queries with a fixed reply -/

/-- C11: whatever the stored image and the session, `GetCommonInfo` returns success and writes
0x40 bytes that are all zero; the reply is the same for any other interface and session. -/
theorem GetCommonInfo_zero (nfp : Interface) (u : IUser) :
    (u.GetCommonInfo nfp).reply.result = .RESULT_SUCCESS
    ∧ (u.GetCommonInfo nfp).reply.buffer = some (List.replicate 0x40 0)
    ∧ (List.replicate 0x40 (0 : u8)).length = 0x40
    ∧ ∀ (nfp1 : Interface) (u1 : IUser),
        (u1.GetCommonInfo nfp1).reply = (u.GetCommonInfo nfp).reply := by
  refine ⟨rfl, ?_, by simp, fun _ _ => rfl⟩
  have e2 : u16_be 0 = [0, 0] := by decide
  have e4 : u32_be 0 = [0, 0, 0, 0] := by decide
  simp [IUser.GetCommonInfo, CommonInfo.bytes, CommonInfo.zero, e2, e4, List.replicate]

/-- C13: from any detection state `Finalize` returns success and sets the detection state to
`Finalized`; the lifecycle state, the attach flag, both events of the session and the
interface (stored image and tag-detected event) are as before. -/
theorem Finalize_effect (nfp : Interface) (u : IUser) :
    (u.Finalize nfp).reply.result = .RESULT_SUCCESS
    ∧ (u.Finalize nfp).user.device_state = .Finalized
    ∧ (u.Finalize nfp).user.state = u.state
    ∧ (u.Finalize nfp).user.has_attached_handle = u.has_attached_handle
    ∧ (u.Finalize nfp).user.deactivate_event = u.deactivate_event
    ∧ (u.Finalize nfp).user.availability_change_event = u.availability_change_event
    ∧ (u.Finalize nfp).nfp.amiibo = nfp.amiibo
    ∧ (u.Finalize nfp).nfp.nfc_tag_load = nfp.nfc_tag_load := by
  simp [IUser.Finalize]

/-- C17: for every requested capacity, zero included, and every session, `ListDevices` returns
success, pushes the count 1 and writes the eight bytes of the constant `device_handle`; the
reply is the same for any other capacity, session and interface. -/
theorem ListDevices_reply (B : Build) (nfp : Interface) (u : IUser) (array_size : Nat) :
    (u.ListDevices B nfp array_size).reply.result = .RESULT_SUCCESS
    ∧ (u.ListDevices B nfp array_size).reply.raw = [1]
    ∧ (u.ListDevices B nfp array_size).reply.buffer = some (u64_bytes B.device_handle)
    ∧ (u64_bytes B.device_handle).length = 8
    ∧ (u.ListDevices B nfp 0).reply = (u.ListDevices B nfp array_size).reply
    ∧ ∀ (nfp1 : Interface) (u1 : IUser) (n1 : Nat),
        (u1.ListDevices B nfp1 n1).reply = (u.ListDevices B nfp array_size).reply := by
  refine ⟨rfl, rfl, rfl, ?_, rfl, fun _ _ _ => rfl⟩
  simp [u64_bytes]

/-- C18: for every device handle supplied and every session, `GetNpadId` returns success with
the npad id 0. -/
theorem GetNpadId_reply (nfp : Interface) (u : IUser) (dev_handle : Nat) :
    (u.GetNpadId nfp dev_handle).reply.result = .RESULT_SUCCESS
    ∧ (u.GetNpadId nfp dev_handle).reply.raw = [0] := by
  exact ⟨rfl, rfl⟩

/-- C19: for every session and every interface (with or without a loaded image),
`GetApplicationArea` and `GetApplicationAreaSize` return success with the single word 0, and
`OpenApplicationArea` returns success with no word, no buffer and no handle. -/
theorem ApplicationArea_replies (nfp : Interface) (u : IUser) :
    (u.GetApplicationArea nfp).reply.result = .RESULT_SUCCESS
    ∧ (u.GetApplicationArea nfp).reply.raw = [0]
    ∧ (u.GetApplicationAreaSize nfp).reply.result = .RESULT_SUCCESS
    ∧ (u.GetApplicationAreaSize nfp).reply.raw = [0]
    ∧ (u.OpenApplicationArea nfp).reply
        = { result := .RESULT_SUCCESS, raw := [], buffer := none, copy_objects := [] } := by
  exact ⟨rfl, rfl, rfl, rfl, rfl⟩

/-- C15: every handler returns `RESULT_SUCCESS`, for every session, every interface (also one
that never saw a load) and every argument: both as a case of `handle` and as the member
function registered in the table `functions` (the entries 0 to 8 and 13 to 23). -/
theorem handle_result (B : Build) (nfp : Interface) (u : IUser) (arg : Nat) :
    (∀ c : Command, (u.handle B nfp c).reply.result = .RESULT_SUCCESS)
    ∧ (∀ info ∈ IUser.functions, ∀ handler, info.handler_callback = some handler →
        (handler B nfp u arg).reply.result = .RESULT_SUCCESS)
    ∧ (IUser.functions.filter (fun info => info.handler_callback.isSome)).map
        (fun info => info.expected_header)
      = [0, 1, 2, 3, 4, 5, 6, 7, 8, 13, 14, 15, 16, 17, 18, 19, 20, 21, 22, 23] := by
  refine ⟨fun c => by cases c <;> rfl, ?_, rfl⟩
  intro info hmem handler h
  simp only [IUser.functions, List.mem_cons, List.mem_singleton, List.not_mem_nil,
    or_false] at hmem
  rcases hmem with rfl | rfl | rfl | rfl | rfl | rfl | rfl | rfl | rfl | rfl | rfl | rfl | rfl
    | rfl | rfl | rfl | rfl | rfl | rfl | rfl | rfl | rfl | rfl | rfl | rfl <;>
    first
      | (injection h with h
         subst h
         rfl)
      | (injection h)

/-- C20: the queries `GetTagInfo`, `GetModelInfo`, `GetCommonInfo`, `GetRegisterInfo`,
`GetApplicationArea`, `GetApplicationAreaSize`, `OpenApplicationArea`, `ListDevices`,
`GetNpadId`, `GetState`, `AttachDeactivateEvent` and `AttachAvailabilityChangeEvent` leave the
session (detection state, lifecycle state, attach flag and its two events) and the interface
(stored image and tag-detected event) exactly as they were; `AttachActivateEvent` leaves the
interface as it was and changes the session in the attach flag only. -/
theorem queries_frame (B : Build) (nfp : Interface) (u : IUser) (arg : Nat) :
    ((u.GetTagInfo B nfp).nfp = nfp ∧ (u.GetTagInfo B nfp).user = u)
    ∧ ((u.GetModelInfo B nfp).nfp = nfp ∧ (u.GetModelInfo B nfp).user = u)
    ∧ ((u.GetCommonInfo nfp).nfp = nfp ∧ (u.GetCommonInfo nfp).user = u)
    ∧ ((u.GetRegisterInfo nfp).nfp = nfp ∧ (u.GetRegisterInfo nfp).user = u)
    ∧ ((u.GetApplicationArea nfp).nfp = nfp ∧ (u.GetApplicationArea nfp).user = u)
    ∧ ((u.GetApplicationAreaSize nfp).nfp = nfp ∧ (u.GetApplicationAreaSize nfp).user = u)
    ∧ ((u.OpenApplicationArea nfp).nfp = nfp ∧ (u.OpenApplicationArea nfp).user = u)
    ∧ ((u.ListDevices B nfp arg).nfp = nfp ∧ (u.ListDevices B nfp arg).user = u)
    ∧ ((u.GetNpadId nfp arg).nfp = nfp ∧ (u.GetNpadId nfp arg).user = u)
    ∧ ((u.GetState nfp).nfp = nfp ∧ (u.GetState nfp).user = u)
    ∧ ((u.AttachDeactivateEvent nfp arg).nfp = nfp ∧ (u.AttachDeactivateEvent nfp arg).user = u)
    ∧ ((u.AttachAvailabilityChangeEvent nfp).nfp = nfp
        ∧ (u.AttachAvailabilityChangeEvent nfp).user = u)
    ∧ ((u.AttachActivateEvent nfp arg).nfp = nfp
        ∧ (u.AttachActivateEvent nfp arg).user = { u with has_attached_handle := true }) := by
  refine ⟨⟨rfl, rfl⟩, ⟨rfl, rfl⟩, ⟨rfl, rfl⟩, ⟨rfl, rfl⟩, ⟨rfl, rfl⟩, ⟨rfl, rfl⟩, ⟨rfl, rfl⟩,
    ⟨rfl, rfl⟩, ⟨rfl, rfl⟩, ⟨rfl, rfl⟩, ⟨rfl, rfl⟩, ⟨rfl, rfl⟩, ⟨rfl, rfl⟩⟩


/-! ## The lifecycle state -/

/-- Every handler other than `Initialize` leaves the lifecycle state as it is. -/
theorem step_state_of_not_Initialize (B : Build) (s : System) (a : Action)
    (ha : a.isInitialize = false) :
    (s.step B a).user.state = s.user.state := by
  cases a with
  | LoadAmiibo buffer => rfl
  | request c =>
    cases c <;> first
      | rfl
      | (simp only [System.step, IUser.handle, IUser.StopDetection]
         split <;> rfl)
      | (simp only [System.step, IUser.handle, IUser.StartDetection]
         split <;> rfl)
      | (simp only [System.step, IUser.handle, IUser.GetDeviceState]
         split <;> rfl)
      | (simp [Action.isInitialize] at ha)

/-- No handler takes the lifecycle state back from `Initialized`. -/
theorem step_state_Initialized (B : Build) (s : System) (a : Action)
    (hs : s.user.state = .Initialized) :
    (s.step B a).user.state = .Initialized := by
  by_cases ha : a.isInitialize = false
  · rw [step_state_of_not_Initialize B s a ha]; exact hs
  · cases a with
    | LoadAmiibo buffer => simp [Action.isInitialize] at ha
    | request c => cases c <;> first | rfl | (simp [Action.isInitialize] at ha)

theorem run_state_of_not_Initialize (B : Build) (as : List Action) (s : System)
    (hno : ∀ a ∈ as, a.isInitialize = false) :
    (s.run B as).user.state = s.user.state := by
  induction as generalizing s with
  | nil => rfl
  | cons a as ih =>
    have h1 := step_state_of_not_Initialize B s a (hno a (List.mem_cons_self a as))
    have h2 := ih (s.step B a) (fun b hb => hno b (List.mem_cons_of_mem a hb))
    simpa [System.run, h1] using h2

theorem run_state_Initialized (B : Build) (as : List Action) (s : System)
    (hs : s.user.state = .Initialized) :
    (s.run B as).user.state = .Initialized := by
  induction as generalizing s with
  | nil => exact hs
  | cons a as ih => exact ih (s.step B a) (step_state_Initialized B s a hs)

/-- C14: `Initialize` sets the lifecycle state to `Initialized` and leaves the detection state
(and the rest of the session and the interface) as it was; after it, and after any further
requests and loads, `GetState` reports `Initialized` (the word 1); on a session taken from its
creation through requests and loads among which there is no `Initialize`, `GetState` reports
`NonInitialized` (the word 0). -/
theorem Initialize_GetState (B : Build) (nfp : Interface) (u : IUser) (as bs : List Action)
    (hno : ∀ a ∈ bs, a.isInitialize = false) :
    (u.Initialize nfp).user = { u with state := .Initialized }
    ∧ (u.Initialize nfp).user.device_state = u.device_state
    ∧ (u.Initialize nfp).nfp = nfp
    ∧ ((System.run B ⟨(u.Initialize nfp).nfp, (u.Initialize nfp).user⟩ as).user.GetState
        (System.run B ⟨(u.Initialize nfp).nfp, (u.Initialize nfp).user⟩ as).nfp).reply
      = { result := .RESULT_SUCCESS, raw := [1] }
    ∧ ((System.run B ⟨nfp, IUser.new⟩ bs).user.GetState
        (System.run B ⟨nfp, IUser.new⟩ bs).nfp).reply
      = { result := .RESULT_SUCCESS, raw := [0] } := by
  refine ⟨rfl, rfl, rfl, ?_, ?_⟩
  · have h := run_state_Initialized B as ⟨(u.Initialize nfp).nfp, (u.Initialize nfp).user⟩ rfl
    simp [IUser.GetState, h, State.toU32]
  · have h : (System.run B ⟨nfp, IUser.new⟩ bs).user.state = .NonInitialized :=
      run_state_of_not_Initialize B bs ⟨nfp, IUser.new⟩ hno
    simp [IUser.GetState, h, State.toU32]

/-- A run without `Initialize` on a new session: detection is started and a short load is
dropped. -/
theorem Initialize_GetState_witness :
    (∀ a ∈ [Action.request .StartDetection, Action.LoadAmiibo [1]], a.isInitialize = false)
    ∧ ((System.run Build.x64 ⟨Interface.new Build.x64, IUser.new⟩
          [Action.request .StartDetection, Action.LoadAmiibo [1]]).user.GetState
        (System.run Build.x64 ⟨Interface.new Build.x64, IUser.new⟩
          [Action.request .StartDetection, Action.LoadAmiibo [1]]).nfp).reply
      = { result := .RESULT_SUCCESS, raw := [0] } :=
  have h : ∀ a ∈ [Action.request .StartDetection, Action.LoadAmiibo [1]],
      a.isInitialize = false := by
    intro a ha
    simp only [List.mem_cons, List.mem_singleton, List.not_mem_nil, or_false] at ha
    rcases ha with rfl | rfl <;> rfl
  ⟨h, (Initialize_GetState Build.x64 (Interface.new Build.x64) IUser.new []
      [Action.request .StartDetection, Action.LoadAmiibo [1]] h).2.2.2.2⟩


/-! ## Leaving `Finalized` -/

/-- C12, as stated, fails: a new session is finalized, and then `Mount` takes it to
`TagNearby`, `Unmount` takes it to `TagFound`, and a `GetDeviceState` after a load of full
size takes it to `TagFound`. -/
theorem Finalized_not_terminal :
    (System.run Build.x64 ⟨Interface.new Build.x64, IUser.new⟩
        [Action.request .Finalize]).user.device_state = .Finalized
    ∧ (System.run Build.x64 ⟨Interface.new Build.x64, IUser.new⟩
        [Action.request .Finalize, Action.request .Mount]).user.device_state = .TagNearby
    ∧ (System.run Build.x64 ⟨Interface.new Build.x64, IUser.new⟩
        [Action.request .Finalize, Action.request .Unmount]).user.device_state = .TagFound
    ∧ (System.run Build.x64 ⟨Interface.new Build.x64, IUser.new⟩
        [Action.request .Finalize, Action.LoadAmiibo (List.replicate 0x94 0),
         Action.request .GetDeviceState]).user.device_state = .TagFound
    ∧ (System.run Build.x64 ⟨Interface.new Build.x64, IUser.new⟩
        [Action.request .Finalize, Action.request .Mount]).user.device_state ≠ .Finalized := by
  refine ⟨rfl, rfl, rfl, ?_, by decide⟩
  simp [System.run, System.step, IUser.handle, IUser.Finalize, IUser.GetDeviceState,
    Interface.LoadAmiibo, Interface.GetNFCEvent, Event.ShouldWait, Event.Signal, Build.x64,
    IUser.new]

/-- C12, amended: a session in `Finalized` is still in `Finalized` after a request or a load,
except after `Mount`, after `Unmount`, and after a `GetDeviceState` that finds the
tag-detected event signalled while the session has no attached handle; after each of these
three it is not. -/
theorem Finalized_kept_iff (B : Build) (s : System) (a : Action)
    (hfin : s.user.device_state = .Finalized) :
    (s.step B a).user.device_state = .Finalized ↔
      ¬ (a = .request .Mount ∨ a = .request .Unmount
          ∨ (a = .request .GetDeviceState ∧ s.nfp.nfc_tag_load.signaled = true
              ∧ s.user.has_attached_handle = false)) := by
  cases a with
  | LoadAmiibo buffer => simpa [System.step] using hfin
  | request c =>
    cases c <;>
      simp [System.step, IUser.handle, IUser.Initialize, IUser.Finalize, IUser.ListDevices,
        IUser.StartDetection, IUser.StopDetection, IUser.Mount, IUser.Unmount,
        IUser.OpenApplicationArea, IUser.GetApplicationArea, IUser.GetTagInfo,
        IUser.GetRegisterInfo, IUser.GetCommonInfo, IUser.GetModelInfo,
        IUser.AttachActivateEvent, IUser.AttachDeactivateEvent, IUser.GetState,
        IUser.GetNpadId, IUser.GetApplicationAreaSize, IUser.AttachAvailabilityChangeEvent,
        hfin]
    case GetDeviceState =>
      by_cases hsig : s.nfp.nfc_tag_load.signaled = true <;>
        by_cases hatt : s.user.has_attached_handle = true <;>
        simp [IUser.GetDeviceState, Interface.GetNFCEvent, Event.ShouldWait, hsig, hatt, hfin]

/-- A finalized session on which detection is started. -/
theorem Finalized_kept_iff_witness :
    (System.run Build.x64 ⟨Interface.new Build.x64, IUser.new⟩
        [Action.request .Finalize]).user.device_state = .Finalized
    ∧ ((System.run Build.x64 ⟨Interface.new Build.x64, IUser.new⟩
        [Action.request .Finalize]).step Build.x64
          (Action.request .StartDetection)).user.device_state = .Finalized :=
  ⟨rfl, (Finalized_kept_iff Build.x64
      (System.run Build.x64 ⟨Interface.new Build.x64, IUser.new⟩ [Action.request .Finalize])
      (Action.request .StartDetection) rfl).mpr (by simp)⟩


/-! ## Dispatch over the table -/

/-- C16: among the indices 0 to 24, a request is reported as unimplemented exactly for 9, 10,
11, 12 and 24, and the report carries the interface and the session as they were; each other
index runs the handler the table names for it, with the argument of the request. -/
theorem InvokeRequest_table (B : Build) (nfp : Interface) (u : IUser) (arg : Nat) :
    (∀ i : Fin 25,
      (∃ name, u.InvokeRequest B nfp i.val arg = some (Dispatch.unimplemented nfp u name))
        ↔ i.val ∈ [9, 10, 11, 12, 24])
    ∧ (∀ i : Fin 25,
      (∃ o, u.InvokeRequest B nfp i.val arg = some (Dispatch.invoked o))
        ↔ i.val ∉ [9, 10, 11, 12, 24])
    ∧ u.InvokeRequest B nfp 9 arg = some (Dispatch.unimplemented nfp u "SetApplicationArea")
    ∧ u.InvokeRequest B nfp 10 arg = some (Dispatch.unimplemented nfp u "Flush")
    ∧ u.InvokeRequest B nfp 11 arg = some (Dispatch.unimplemented nfp u "Restore")
    ∧ u.InvokeRequest B nfp 12 arg
        = some (Dispatch.unimplemented nfp u "CreateApplicationArea")
    ∧ u.InvokeRequest B nfp 24 arg
        = some (Dispatch.unimplemented nfp u "RecreateApplicationArea")
    ∧ u.InvokeRequest B nfp 0 arg = some (Dispatch.invoked (u.Initialize nfp))
    ∧ u.InvokeRequest B nfp 1 arg = some (Dispatch.invoked (u.Finalize nfp))
    ∧ u.InvokeRequest B nfp 2 arg = some (Dispatch.invoked (u.ListDevices B nfp arg))
    ∧ u.InvokeRequest B nfp 3 arg = some (Dispatch.invoked (u.StartDetection nfp))
    ∧ u.InvokeRequest B nfp 4 arg = some (Dispatch.invoked (u.StopDetection nfp))
    ∧ u.InvokeRequest B nfp 5 arg = some (Dispatch.invoked (u.Mount nfp))
    ∧ u.InvokeRequest B nfp 6 arg = some (Dispatch.invoked (u.Unmount nfp))
    ∧ u.InvokeRequest B nfp 7 arg = some (Dispatch.invoked (u.OpenApplicationArea nfp))
    ∧ u.InvokeRequest B nfp 8 arg = some (Dispatch.invoked (u.GetApplicationArea nfp))
    ∧ u.InvokeRequest B nfp 13 arg = some (Dispatch.invoked (u.GetTagInfo B nfp))
    ∧ u.InvokeRequest B nfp 14 arg = some (Dispatch.invoked (u.GetRegisterInfo nfp))
    ∧ u.InvokeRequest B nfp 15 arg = some (Dispatch.invoked (u.GetCommonInfo nfp))
    ∧ u.InvokeRequest B nfp 16 arg = some (Dispatch.invoked (u.GetModelInfo B nfp))
    ∧ u.InvokeRequest B nfp 17 arg = some (Dispatch.invoked (u.AttachActivateEvent nfp arg))
    ∧ u.InvokeRequest B nfp 18 arg = some (Dispatch.invoked (u.AttachDeactivateEvent nfp arg))
    ∧ u.InvokeRequest B nfp 19 arg = some (Dispatch.invoked (u.GetState nfp))
    ∧ u.InvokeRequest B nfp 20 arg = some (Dispatch.invoked (u.GetDeviceState nfp))
    ∧ u.InvokeRequest B nfp 21 arg = some (Dispatch.invoked (u.GetNpadId nfp arg))
    ∧ u.InvokeRequest B nfp 22 arg = some (Dispatch.invoked (u.GetApplicationAreaSize nfp))
    ∧ u.InvokeRequest B nfp 23 arg
        = some (Dispatch.invoked (u.AttachAvailabilityChangeEvent nfp)) := by
  refine ⟨?_, ?_, rfl, rfl, rfl, rfl, rfl, rfl, rfl, rfl, rfl, rfl, rfl, rfl, rfl, rfl,
    rfl, rfl, rfl, rfl, rfl, rfl, rfl, rfl, rfl, rfl, rfl⟩
  · intro i
    fin_cases i <;> simp [IUser.InvokeRequest, IUser.functions]
  · intro i
    fin_cases i <;> simp [IUser.InvokeRequest, IUser.functions]


/-! ## What `GetTagInfo` copies, and the words returned for the states -/

/-- C29: on a host whose `size_t` has eight bytes, with a ten-byte identifier inside the
image, the record written by `GetTagInfo` starts with the first eight identifier bytes of the
image, has zero at the offsets 8 and 9 whatever the last two identifier bytes are, and has
the length 10 at the offset 10; the rest is as for every image. -/
theorem GetTagInfo_copies_size_t (B : Build) (nfp : Interface) (u : IUser)
    (h8 : B.sizeof_size_t = 8) (hu : B.sizeof_uuid = 10)
    (hlen : B.offsetof_uuid + 10 ≤ nfp.GetAmiiboBuffer.raw.length) :
    (u.GetTagInfo B nfp).reply.buffer
      = some ((nfp.GetAmiiboBuffer.uuid B).take 8 ++ [0, 0] ++ [10] ++ List.replicate 0x15 0
          ++ [1, 0, 0, 0] ++ [2, 0, 0, 0] ++ List.replicate 0x2c 0)
    ∧ ((nfp.GetAmiiboBuffer.uuid B).take 8).length = 8
    ∧ (nfp.GetAmiiboBuffer.uuid B).length = 10 := by
  have hd : (nfp.GetAmiiboBuffer.raw.drop B.offsetof_uuid).length ≥ 10 := by
    rw [List.length_drop]; omega
  have ht : (nfp.GetAmiiboBuffer.uuid B).take 8
      = (nfp.GetAmiiboBuffer.uuid_data B).take 8 := by
    simp [AmiiboFile.uuid, AmiiboFile.uuid_data, hu, List.take_take]
  have hz : (List.replicate 10 (0 : u8)).drop 8 = [0, 0] := by decide
  refine ⟨?_, ?_, ?_⟩
  · show some (IUser.GetTagInfo.tag_info B nfp.GetAmiiboBuffer).bytes = _
    rw [GetTagInfo_tag_info_bytes, h8, hz, ht]
  · rw [ht, AmiiboFile.uuid_data, List.length_take]; omega
  · rw [AmiiboFile.uuid, hu, List.length_take]; omega

/-- An image whose last two identifier bytes are 0xff, on the 64-bit host. -/
theorem GetTagInfo_copies_size_t_witness :
    Build.x64.sizeof_size_t = 8 ∧ Build.x64.sizeof_uuid = 10
    ∧ Build.x64.offsetof_uuid + 10
        ≤ ((Interface.new Build.x64).LoadAmiibo Build.x64
            ([1, 2, 3, 4, 5, 6, 7, 8, 0xff, 0xff]
              ++ List.replicate 0x8a 0)).GetAmiiboBuffer.raw.length
    ∧ ((((Interface.new Build.x64).LoadAmiibo Build.x64
            ([1, 2, 3, 4, 5, 6, 7, 8, 0xff, 0xff]
              ++ List.replicate 0x8a 0)).GetAmiiboBuffer.uuid Build.x64).take 8).length = 8 :=
  have h : Build.x64.offsetof_uuid + 10
        ≤ ((Interface.new Build.x64).LoadAmiibo Build.x64
            ([1, 2, 3, 4, 5, 6, 7, 8, 0xff, 0xff]
              ++ List.replicate 0x8a 0)).GetAmiiboBuffer.raw.length := by
    simp [Interface.LoadAmiibo, Interface.GetAmiiboBuffer, Build.x64]
  ⟨rfl, rfl, h, (GetTagInfo_copies_size_t Build.x64 _ IUser.new rfl rfl h).2.1⟩

/-- C30: the word `GetDeviceState` returns is the number of the detection state the session
has when the call is over (after the transition the call may have made), and the word
`GetState` returns is the number of the lifecycle state; the numbers are 0 `Initialized`,
1 `SearchingForTag`, 2 `TagFound`, 3 `TagRemoved`, 4 `TagNearby`, 6 `Finalized`, and
0 `NonInitialized`, 1 `Initialized`, and different states have different numbers. -/
theorem state_words (nfp : Interface) (u : IUser) :
    (u.GetDeviceState nfp).reply.raw = [(u.GetDeviceState nfp).user.device_state.toU32]
    ∧ (u.GetState nfp).reply.raw = [u.state.toU32]
    ∧ DeviceState.Initialized.toU32 = 0
    ∧ DeviceState.SearchingForTag.toU32 = 1
    ∧ DeviceState.TagFound.toU32 = 2
    ∧ DeviceState.TagRemoved.toU32 = 3
    ∧ DeviceState.TagNearby.toU32 = 4
    ∧ DeviceState.Finalized.toU32 = 6
    ∧ State.NonInitialized.toU32 = 0
    ∧ State.Initialized.toU32 = 1
    ∧ Function.Injective DeviceState.toU32
    ∧ Function.Injective State.toU32 := by
  refine ⟨?_, rfl, rfl, rfl, rfl, rfl, rfl, rfl, rfl, rfl, ?_, ?_⟩
  · simp only [IUser.GetDeviceState]
  · intro a b h
    cases a <;> cases b <;> first | rfl | (simp [DeviceState.toU32] at h)
  · intro a b h
    cases a <;> cases b <;> first | rfl | (simp [State.toU32] at h)


/-! ## Rendering twice -/

/-- A run without an accepted load keeps the stored image. -/
theorem run_amiibo_keep (B : Build) (as : List Action) (s : System)
    (hno : ∀ a ∈ as, a.loadedBuffer B = none) :
    (s.run B as).nfp.amiibo = s.nfp.amiibo := by
  induction as generalizing s with
  | nil => rfl
  | cons a as ih =>
    have h2 := ih (s.step B a) (fun b hb => hno b (List.mem_cons_of_mem a hb))
    have h1 : (s.step B a).nfp.amiibo = s.nfp.amiibo := by
      have ha := hno a (List.mem_cons_self a as)
      cases a with
      | request c => exact handle_amiibo B s.nfp s.user c
      | LoadAmiibo buffer =>
        by_cases hlen : buffer.length < B.sizeof_AmiiboFile
        · simp [System.step, Interface.LoadAmiibo, hlen]
        · simp [Action.loadedBuffer, hlen] at ha
    simpa [System.run, h1] using h2

/-- C24: `GetTagInfo` called twice in a row writes the same bytes, and so does
`GetCommonInfo`; the same holds with any requests and dropped loads between the two calls;
and the reply of `GetTagInfo` is the same on any session and any interface that holds the
same image, that of `GetCommonInfo` on any session and interface at all. -/
theorem rendering_deterministic (B : Build) (nfp : Interface) (u : IUser) :
    ((u.GetTagInfo B nfp).user.GetTagInfo B (u.GetTagInfo B nfp).nfp).reply
        = (u.GetTagInfo B nfp).reply
    ∧ ((u.GetCommonInfo nfp).user.GetCommonInfo (u.GetCommonInfo nfp).nfp).reply
        = (u.GetCommonInfo nfp).reply
    ∧ (∀ as : List Action, (∀ a ∈ as, a.loadedBuffer B = none) →
        ((System.run B ⟨(u.GetTagInfo B nfp).nfp, (u.GetTagInfo B nfp).user⟩ as).user.GetTagInfo
            B (System.run B ⟨(u.GetTagInfo B nfp).nfp, (u.GetTagInfo B nfp).user⟩ as).nfp).reply
          = (u.GetTagInfo B nfp).reply)
    ∧ (∀ as : List Action,
        ((System.run B ⟨(u.GetCommonInfo nfp).nfp,
              (u.GetCommonInfo nfp).user⟩ as).user.GetCommonInfo
            (System.run B ⟨(u.GetCommonInfo nfp).nfp, (u.GetCommonInfo nfp).user⟩ as).nfp).reply
          = (u.GetCommonInfo nfp).reply)
    ∧ (∀ (nfp1 : Interface) (u1 : IUser), nfp1.GetAmiiboBuffer = nfp.GetAmiiboBuffer →
        (u1.GetTagInfo B nfp1).reply = (u.GetTagInfo B nfp).reply)
    ∧ (∀ (nfp1 : Interface) (u1 : IUser),
        (u1.GetCommonInfo nfp1).reply = (u.GetCommonInfo nfp).reply) := by
  refine ⟨rfl, rfl, ?_, fun _ => rfl, ?_, fun _ _ => rfl⟩
  · intro as hno
    have h := run_amiibo_keep B as ⟨(u.GetTagInfo B nfp).nfp, (u.GetTagInfo B nfp).user⟩ hno
    simp only [IUser.GetTagInfo, Interface.GetAmiiboBuffer] at h ⊢
    rw [h]
  · intro nfp1 u1 h
    simp only [IUser.GetTagInfo, h]

/-! ## Sessions side by side -/

/-- C22: the factory returns success and appends a session with detection state
`Initialized`, lifecycle state `NonInitialized`, no attached handle and both of its events
not signalled, whatever the interface holds and whichever sessions exist; the interface and
every session that existed are as before. -/
theorem CreateUserInterface_new (w : World) :
    w.CreateUserInterface.2.result = .RESULT_SUCCESS
    ∧ w.CreateUserInterface.1.sessions[w.sessions.length]? = some IUser.new
    ∧ IUser.new.device_state = .Initialized
    ∧ IUser.new.state = .NonInitialized
    ∧ IUser.new.has_attached_handle = false
    ∧ IUser.new.deactivate_event.signaled = false
    ∧ IUser.new.availability_change_event.signaled = false
    ∧ w.CreateUserInterface.1.nfp = w.nfp
    ∧ w.CreateUserInterface.1.sessions.length = w.sessions.length + 1
    ∧ w.CreateUserInterface.1.sessions.take w.sessions.length = w.sessions
    ∧ (∀ (j : Nat) (v : IUser), w.sessions[j]? = some v →
        w.CreateUserInterface.1.sessions[j]? = some v) := by
  refine ⟨rfl, ?_, rfl, rfl, rfl, rfl, rfl, rfl, ?_, ?_, ?_⟩
  · simp [World.CreateUserInterface]
  · simp [World.CreateUserInterface]
  · simp [World.CreateUserInterface]
  · intro j v hj
    have hlt : j < w.sessions.length := by
      rcases Nat.lt_or_ge j w.sessions.length with h | h
      · exact h
      · rw [List.getElem?_eq_none h] at hj; cases hj
    simp only [World.CreateUserInterface]
    rw [List.getElem?_append_left hlt]
    exact hj

/-- A request to one session leaves the session at any other position as it is. -/
theorem request_sessions_ne (B : Build) (w : World) (i j : Nat) (c : Command) (hij : i ≠ j) :
    (w.request B i c).1.sessions[j]? = w.sessions[j]? := by
  unfold World.request
  cases h : w.sessions[i]? with
  | none => rfl
  | some v => simp [List.getElem?_set_ne hij]

/-- C23: a request served by one session leaves every other session of the same interface
(detection state, lifecycle state, attach flag, deactivation event and availability-change
event) as it was; so `StopDetection` on one session sends no signal to the deactivation
event of another, and `AttachActivateEvent` on one does not set the flag of another. -/
theorem request_other_session (B : Build) (w : World) (i j : Nat) (b : IUser) (c : Command)
    (hij : i ≠ j) (hb : w.sessions[j]? = some b) :
    (w.request B i c).1.sessions[j]? = some b
    ∧ (w.request B i .StopDetection).1.sessions[j]? = some b
    ∧ (∀ dev_handle : Nat,
        (w.request B i (.AttachActivateEvent dev_handle)).1.sessions[j]? = some b) := by
  refine ⟨?_, ?_, fun _ => ?_⟩ <;> rw [request_sessions_ne B w i j _ hij] <;> exact hb

/-- Two sessions, the first with a tag found; `StopDetection` is sent to the first. -/
theorem request_other_session_witness :
    (0 : Nat) ≠ 1
    ∧ (World.mk (Interface.new Build.x64)
        [{ IUser.new with device_state := .TagFound }, IUser.new]).sessions[1]? = some IUser.new
    ∧ ((World.mk (Interface.new Build.x64)
          [{ IUser.new with device_state := .TagFound }, IUser.new]).request Build.x64 0
        .StopDetection).1.sessions[1]? = some IUser.new :=
  ⟨by decide, rfl,
    (request_other_session Build.x64
      (World.mk (Interface.new Build.x64)
        [{ IUser.new with device_state := .TagFound }, IUser.new])
      0 1 IUser.new .StopDetection (by decide) rfl).1⟩


/-! ## Runs of several sessions -/

/-- A request on an existing session, unfolded. -/
theorem request_of_getElem (B : Build) (w : World) (i : Nat) (c : Command) (v : IUser)
    (hv : w.sessions[i]? = some v) :
    w.request B i c =
      ({ nfp := (v.handle B w.nfp c).nfp
         sessions := w.sessions.set i (v.handle B w.nfp c).user },
       some (v.handle B w.nfp c).reply) := by
  unfold World.request
  rw [hv]

theorem lt_length_of_getElem {l : List IUser} {i : Nat} {v : IUser} (hv : l[i]? = some v) :
    i < l.length := by
  rcases Nat.lt_or_ge i l.length with h | h
  · exact h
  · rw [List.getElem?_eq_none h] at hv; cases hv

/-- Every handler other than `GetDeviceState` returns the interface it was given. -/
theorem handle_nfp_of_ne (B : Build) (nfp : Interface) (u : IUser) (c : Command)
    (hc : c ≠ .GetDeviceState) :
    (u.handle B nfp c).nfp = nfp := by
  cases c <;> first
    | rfl
    | exact absurd rfl hc

/-- A step that is not an accepted load keeps the stored image. -/
theorem world_step_amiibo (B : Build) (w : World) (a : WorldAction)
    (ha : a.isLoaded B = false) :
    (w.step B a).nfp.amiibo = w.nfp.amiibo := by
  cases a with
  | CreateUserInterface => rfl
  | request i c =>
    simp only [World.step, World.request]
    cases h : w.sessions[i]? with
    | none => rfl
    | some v => exact handle_amiibo B w.nfp v c
  | LoadAmiibo buffer =>
    have hlen : buffer.length < B.sizeof_AmiiboFile := by
      simpa [WorldAction.isLoaded] using ha
    simp [World.step, World.LoadAmiibo, Interface.LoadAmiibo, hlen]

theorem world_run_amiibo (B : Build) (as : List WorldAction) (w : World)
    (hno : ∀ a ∈ as, a.isLoaded B = false) :
    (w.run B as).nfp.amiibo = w.nfp.amiibo := by
  induction as generalizing w with
  | nil => rfl
  | cons a as ih =>
    have h1 := world_step_amiibo B w a (hno a (List.mem_cons_self a as))
    have h2 := ih (w.step B a) (fun b hb => hno b (List.mem_cons_of_mem a hb))
    simpa [World.run, h1] using h2

/-- No handler assigns `TagRemoved` or `Unknown5`, nor keeps a session out of the other
states. -/
theorem handle_isAssigned (B : Build) (nfp : Interface) (u : IUser) (c : Command)
    (hu : u.device_state.isAssigned = true) :
    (u.handle B nfp c).user.device_state.isAssigned = true := by
  cases c <;> first
    | exact hu
    | rfl
    | (simp only [IUser.handle, IUser.StopDetection]
       split <;> first | rfl | exact hu)
    | (simp only [IUser.handle, IUser.StartDetection]
       split <;> first | rfl | exact hu)
    | (simp only [IUser.handle, IUser.GetDeviceState]
       split <;> first | rfl | exact hu)

theorem world_step_isAssigned (B : Build) (w : World) (a : WorldAction)
    (hw : ∀ u ∈ w.sessions, u.device_state.isAssigned = true) :
    ∀ u ∈ (w.step B a).sessions, u.device_state.isAssigned = true := by
  intro u hu
  cases a with
  | CreateUserInterface =>
    simp only [World.step, World.CreateUserInterface, List.mem_append,
      List.mem_singleton] at hu
    rcases hu with h | rfl
    · exact hw u h
    · rfl
  | request i c =>
    simp only [World.step, World.request] at hu
    cases h : w.sessions[i]? with
    | none =>
      rw [h] at hu
      exact hw u hu
    | some v =>
      rw [h] at hu
      rcases List.mem_or_eq_of_mem_set hu with h1 | rfl
      · exact hw u h1
      · exact handle_isAssigned B w.nfp v c (hw v (List.getElem?_mem h))
  | LoadAmiibo buffer => exact hw u hu

theorem world_run_isAssigned (B : Build) (as : List WorldAction) (w : World)
    (hw : ∀ u ∈ w.sessions, u.device_state.isAssigned = true) :
    ∀ u ∈ (w.run B as).sessions, u.device_state.isAssigned = true := by
  induction as generalizing w with
  | nil => exact hw
  | cons a as ih => exact ih (w.step B a) (world_step_isAssigned B w a hw)


/-- C21: after `LoadAmiibo` of a buffer of at least `sizeof(AmiiboFile)` bytes, and after any
further session creations, requests and dropped loads, `GetModelInfo` on any existing session
returns success and writes the member `model_info` of the image made of the first
`sizeof(AmiiboFile)` bytes of that buffer, whatever the interface held before the load. -/
theorem GetModelInfo_after_load (B : Build) (w : World) (buffer : List u8)
    (as : List WorldAction) (i : Nat) (v : IUser)
    (hlen : B.sizeof_AmiiboFile ≤ buffer.length)
    (hno : ∀ a ∈ as, a.isLoaded B = false)
    (hv : ((w.LoadAmiibo B buffer).run B as).sessions[i]? = some v) :
    (((w.LoadAmiibo B buffer).run B as).request B i .GetModelInfo).2
      = some { result := .RESULT_SUCCESS
               buffer := some (AmiiboFile.model_info B ⟨buffer.take B.sizeof_AmiiboFile⟩) } := by
  have ha : ((w.LoadAmiibo B buffer).run B as).nfp.amiibo
      = ⟨buffer.take B.sizeof_AmiiboFile⟩ := by
    rw [world_run_amiibo B as _ hno]
    have hnot : ¬ buffer.length < B.sizeof_AmiiboFile := Nat.not_lt.mpr hlen
    simp [World.LoadAmiibo, Interface.LoadAmiibo, hnot]
  rw [request_of_getElem B _ i _ v hv]
  simp only [IUser.handle, IUser.GetModelInfo, Interface.GetAmiiboBuffer, ha]

/-- A load on a new interface, a session created after it, and `GetModelInfo` on it. -/
theorem GetModelInfo_after_load_witness :
    Build.x64.sizeof_AmiiboFile ≤ (List.replicate 0x94 (3 : u8)).length
    ∧ (∀ a ∈ [WorldAction.CreateUserInterface, WorldAction.LoadAmiibo [1, 2]],
        a.isLoaded Build.x64 = false)
    ∧ (((World.new Build.x64).LoadAmiibo Build.x64 (List.replicate 0x94 3)).run Build.x64
        [WorldAction.CreateUserInterface, WorldAction.LoadAmiibo [1, 2]]).sessions[0]?
        = some IUser.new
    ∧ ((((World.new Build.x64).LoadAmiibo Build.x64 (List.replicate 0x94 3)).run Build.x64
          [WorldAction.CreateUserInterface, WorldAction.LoadAmiibo [1, 2]]).request Build.x64 0
        .GetModelInfo).2
      = some { result := .RESULT_SUCCESS
               buffer := some (AmiiboFile.model_info Build.x64
                 ⟨(List.replicate 0x94 (3 : u8)).take Build.x64.sizeof_AmiiboFile⟩) } :=
  have h1 : Build.x64.sizeof_AmiiboFile ≤ (List.replicate 0x94 (3 : u8)).length := by
    simp [Build.x64]
  have h2 : ∀ a ∈ [WorldAction.CreateUserInterface, WorldAction.LoadAmiibo [1, 2]],
      a.isLoaded Build.x64 = false := by
    intro a ha
    simp only [List.mem_cons, List.mem_singleton, List.not_mem_nil, or_false] at ha
    rcases ha with rfl | rfl <;> rfl
  have h3 : (((World.new Build.x64).LoadAmiibo Build.x64 (List.replicate 0x94 3)).run Build.x64
        [WorldAction.CreateUserInterface, WorldAction.LoadAmiibo [1, 2]]).sessions[0]?
        = some IUser.new := rfl
  ⟨h1, h2, h3, GetModelInfo_after_load Build.x64 (World.new Build.x64) (List.replicate 0x94 3)
      [WorldAction.CreateUserInterface, WorldAction.LoadAmiibo [1, 2]] 0 IUser.new h1 h2 h3⟩

/-- C26: take a new interface through any session creations, requests and loads. Every
session then has one of the detection states `Initialized`, `SearchingForTag`, `TagFound`,
`TagNearby`, `Finalized`, never `TagRemoved` or `Unknown5`; so the branches of
`StartDetection` and `StopDetection` for `TagRemoved` are not taken on it, and
`GetDeviceState` on it returns neither 3 nor 5, whatever the interface holds. -/
theorem device_state_assigned (B : Build) (as : List WorldAction) (u : IUser)
    (hu : u ∈ (World.run B (World.new B) as).sessions) :
    u.device_state ∈ [DeviceState.Initialized, DeviceState.SearchingForTag,
        DeviceState.TagFound, DeviceState.TagNearby, DeviceState.Finalized]
    ∧ u.device_state ≠ .TagRemoved
    ∧ u.device_state ≠ .Unknown5
    ∧ (∀ nfp : Interface, (u.GetDeviceState nfp).reply.raw ≠ [3]
        ∧ (u.GetDeviceState nfp).reply.raw ≠ [5]) := by
  have h : u.device_state.isAssigned = true :=
    world_run_isAssigned B as (World.new B) (fun v hv => by cases hv) u hu
  have hg : ∀ nfp : Interface, (u.GetDeviceState nfp).user.device_state.isAssigned = true :=
    fun nfp => handle_isAssigned B nfp u .GetDeviceState h
  refine ⟨?_, ?_, ?_, fun nfp => ?_⟩
  · cases hd : u.device_state <;> simp [hd, DeviceState.isAssigned] at h ⊢
  · intro hd; simp [hd, DeviceState.isAssigned] at h
  · intro hd; simp [hd, DeviceState.isAssigned] at h
  · have hr : (u.GetDeviceState nfp).reply.raw
        = [(u.GetDeviceState nfp).user.device_state.toU32] := by
      simp only [IUser.GetDeviceState]
    have hgn := hg nfp
    rw [hr]
    cases hd : (u.GetDeviceState nfp).user.device_state <;>
      simp [hd, DeviceState.isAssigned, DeviceState.toU32] at hgn ⊢

/-- A session that was created, saw a load and was asked for its device state. -/
theorem device_state_assigned_witness :
    ({ IUser.new with device_state := .TagFound } : IUser)
      ∈ (World.run Build.x64 (World.new Build.x64)
          [WorldAction.CreateUserInterface, WorldAction.LoadAmiibo (List.replicate 0x94 0),
           WorldAction.request 0 .GetDeviceState]).sessions
    ∧ ({ IUser.new with device_state := .TagFound } : IUser).device_state ≠ .TagRemoved :=
  have h : ({ IUser.new with device_state := .TagFound } : IUser)
      ∈ (World.run Build.x64 (World.new Build.x64)
          [WorldAction.CreateUserInterface, WorldAction.LoadAmiibo (List.replicate 0x94 0),
           WorldAction.request 0 .GetDeviceState]).sessions := by
    simp [World.run, World.step, World.new, World.CreateUserInterface, World.LoadAmiibo,
      World.request, Interface.LoadAmiibo, Interface.new, IUser.handle, IUser.GetDeviceState,
      Interface.GetNFCEvent, Event.ShouldWait, Event.Signal, Build.x64, IUser.new]
  ⟨h, (device_state_assigned Build.x64 _ _ h).2.1⟩


/-! ## Who observes a load -/

/-- C27: two sessions of one interface, the first without an attached handle. After a load
of full size, `GetDeviceState` on the first returns `TagFound` (the word 2) and moves it to
`TagFound`; `GetDeviceState` on the second right after returns the detection state the second
session had, and leaves that session as it was, with or without an attached handle: the
tag-detected event was cleared by the first call. -/
theorem GetDeviceState_first_poll (B : Build) (w : World) (i j : Nat) (a b : IUser)
    (buffer : List u8) (hij : i ≠ j)
    (hi : w.sessions[i]? = some a) (hj : w.sessions[j]? = some b)
    (ha : a.has_attached_handle = false)
    (hlen : B.sizeof_AmiiboFile ≤ buffer.length) :
    (((w.LoadAmiibo B buffer).request B i .GetDeviceState).2
        = some { result := .RESULT_SUCCESS, raw := [DeviceState.TagFound.toU32] })
    ∧ (((w.LoadAmiibo B buffer).request B i .GetDeviceState).1.sessions[i]?
        = some { a with device_state := .TagFound })
    ∧ ((((w.LoadAmiibo B buffer).request B i .GetDeviceState).1.request B j .GetDeviceState).2
        = some { result := .RESULT_SUCCESS, raw := [b.device_state.toU32] })
    ∧ ((((w.LoadAmiibo B buffer).request B i .GetDeviceState).1.request B j
          .GetDeviceState).1.sessions[j]? = some b)
    ∧ ((((w.LoadAmiibo B buffer).request B i .GetDeviceState).1.request B j
          .GetDeviceState).1.nfp.nfc_tag_load.signaled = false) := by
  have hnot : ¬ buffer.length < B.sizeof_AmiiboFile := Nat.not_lt.mpr hlen
  have hsig : (w.LoadAmiibo B buffer).nfp.nfc_tag_load.signaled = true := by
    simp [World.LoadAmiibo, Interface.LoadAmiibo, hnot, Event.Signal]
  have hi1 : (w.LoadAmiibo B buffer).sessions[i]? = some a := hi
  have h1 := request_of_getElem B (w.LoadAmiibo B buffer) i .GetDeviceState a hi1
  have hg1 := GetDeviceState_of_signaled (w.LoadAmiibo B buffer).nfp a ha hsig
  simp only [IUser.handle] at h1
  rw [hg1] at h1
  have hilt : i < w.sessions.length := lt_length_of_getElem hi
  have hjlt : j < w.sessions.length := lt_length_of_getElem hj
  have hj1 : ((w.LoadAmiibo B buffer).request B i .GetDeviceState).1.sessions[j]? = some b := by
    rw [request_sessions_ne B _ i j _ hij]; exact hj
  have h2 := request_of_getElem B ((w.LoadAmiibo B buffer).request B i .GetDeviceState).1 j
    .GetDeviceState b hj1
  have hclr : ((w.LoadAmiibo B buffer).request B i .GetDeviceState).1.nfp.nfc_tag_load.signaled
      = false := by
    rw [h1]; rfl
  have hg2 := GetDeviceState_of_idle
    ((w.LoadAmiibo B buffer).request B i .GetDeviceState).1.nfp b (Or.inl hclr)
  simp only [IUser.handle] at h2
  rw [hg2] at h2
  refine ⟨?_, ?_, ?_, ?_, ?_⟩
  · rw [h1]; rfl
  · rw [h1]
    exact List.getElem?_set_self (by simpa [World.LoadAmiibo] using hilt)
  · rw [h2]
  · rw [h2]
    apply List.getElem?_set_self
    have hl : ((w.LoadAmiibo B buffer).request B i .GetDeviceState).1.sessions.length
        = w.sessions.length := by
      rw [h1]; simp [World.LoadAmiibo]
    omega
  · rw [h2]; exact hclr

/-- Two new sessions, the second searching for a tag, and one load of full size. -/
theorem GetDeviceState_first_poll_witness :
    (0 : Nat) ≠ 1
    ∧ Build.x64.sizeof_AmiiboFile ≤ (List.replicate 0x94 (7 : u8)).length
    ∧ ((((World.mk (Interface.new Build.x64)
          [IUser.new, { IUser.new with device_state := .SearchingForTag }]).LoadAmiibo Build.x64
        (List.replicate 0x94 7)).request Build.x64 0 .GetDeviceState).1.request Build.x64 1
          .GetDeviceState).2
        = some { result := .RESULT_SUCCESS, raw := [DeviceState.SearchingForTag.toU32] } :=
  have h : Build.x64.sizeof_AmiiboFile ≤ (List.replicate 0x94 (7 : u8)).length := by
    simp [Build.x64]
  ⟨by decide, h,
    (GetDeviceState_first_poll Build.x64
      (World.mk (Interface.new Build.x64)
        [IUser.new, { IUser.new with device_state := .SearchingForTag }])
      0 1 IUser.new { IUser.new with device_state := .SearchingForTag }
      (List.replicate 0x94 7) (by decide) rfl rfl rfl h).2.2.1⟩


/-- A signalled tag-detected event and a session without an attached handle stay so through
a step that is neither a `GetDeviceState` nor an `AttachActivateEvent` on that session. -/
theorem world_step_pending (B : Build) (w : World) (k : Nat) (a : WorldAction)
    (hg : a.isGetDeviceState = false) (hk : a.isAttachActivateOn k = false)
    (hs : w.nfp.nfc_tag_load.signaled = true)
    (hu : ∃ u, w.sessions[k]? = some u ∧ u.has_attached_handle = false) :
    (w.step B a).nfp.nfc_tag_load.signaled = true
    ∧ ∃ u, (w.step B a).sessions[k]? = some u ∧ u.has_attached_handle = false := by
  obtain ⟨u, huk, huf⟩ := hu
  cases a with
  | CreateUserInterface =>
    refine ⟨hs, u, ?_, huf⟩
    simp only [World.step, World.CreateUserInterface]
    rw [List.getElem?_append_left (lt_length_of_getElem huk)]
    exact huk
  | LoadAmiibo buffer =>
    refine ⟨?_, u, huk, huf⟩
    by_cases hlen : buffer.length < B.sizeof_AmiiboFile
    · simpa [World.step, World.LoadAmiibo, Interface.LoadAmiibo, hlen] using hs
    · simp [World.step, World.LoadAmiibo, Interface.LoadAmiibo, hlen, Event.Signal]
  | request i c =>
    have hc : c ≠ .GetDeviceState := by
      intro h; subst h; simp [WorldAction.isGetDeviceState] at hg
    cases h : w.sessions[i]? with
    | none =>
      have hw : w.step B (.request i c) = w := by
        simp [World.step, World.request, h]
      rw [hw]
      exact ⟨hs, u, huk, huf⟩
    | some v =>
      have hw : w.step B (.request i c) = _ := congrArg Prod.fst (request_of_getElem B w i c v h)
      rw [hw]
      refine ⟨?_, ?_⟩
      · show (v.handle B w.nfp c).nfp.nfc_tag_load.signaled = true
        rw [handle_nfp_of_ne B w.nfp v c hc]; exact hs
      · by_cases hik : i = k
        · subst hik
          have hvu : v = u := by rw [h] at huk; exact Option.some.inj huk
          subst hvu
          refine ⟨(v.handle B w.nfp c).user, ?_, ?_⟩
          · exact List.getElem?_set_self (lt_length_of_getElem h)
          · have hna : (Action.request c).isAttachActivate = false := by
              cases c <;> first
                | rfl
                | (simp [WorldAction.isAttachActivateOn] at hk)
            have := step_flag_of_not_attach B ⟨w.nfp, v⟩ (.request c) hna
            exact this.trans huf
        · refine ⟨u, ?_, huf⟩
          show (w.sessions.set i (v.handle B w.nfp c).user)[k]? = some u
          rw [List.getElem?_set_ne hik]
          exact huk

theorem world_run_pending (B : Build) (k : Nat) (as : List WorldAction) (w : World)
    (hg : ∀ a ∈ as, a.isGetDeviceState = false)
    (hk : ∀ a ∈ as, a.isAttachActivateOn k = false)
    (hs : w.nfp.nfc_tag_load.signaled = true)
    (hu : ∃ u, w.sessions[k]? = some u ∧ u.has_attached_handle = false) :
    (w.run B as).nfp.nfc_tag_load.signaled = true
    ∧ ∃ u, (w.run B as).sessions[k]? = some u ∧ u.has_attached_handle = false := by
  induction as generalizing w with
  | nil => exact ⟨hs, hu⟩
  | cons a as ih =>
    have h1 := world_step_pending B w k a (hg a (List.mem_cons_self a as))
      (hk a (List.mem_cons_self a as)) hs hu
    exact ih (w.step B a) (fun b hb => hg b (List.mem_cons_of_mem a hb))
      (fun b hb => hk b (List.mem_cons_of_mem a hb)) h1.1 h1.2


/-- C28: the tag-detected event is left as it is by every handler other than
`GetDeviceState`, by `GetDeviceState` on a session with an attached handle, and by a dropped
load; `GetDeviceState` never signals it; a load of full size signals it. So when a load of
full size is followed by the creation of a session and then by any steps among which there is
no `GetDeviceState` and no `AttachActivateEvent` on that session (`StartDetection`,
`StopDetection`, `Mount`, `Unmount`, `Finalize` on it, or no step at all), the next
`GetDeviceState` on that session returns `TagFound` and leaves it in `TagFound`. -/
theorem nfc_tag_load_pending (B : Build) (w : World) (buffer : List u8)
    (as : List WorldAction)
    (hlen : B.sizeof_AmiiboFile ≤ buffer.length)
    (hg : ∀ a ∈ as, a.isGetDeviceState = false)
    (hk : ∀ a ∈ as, a.isAttachActivateOn w.sessions.length = false) :
    (∀ (nfp : Interface) (u : IUser) (c : Command), c ≠ .GetDeviceState →
        (u.handle B nfp c).nfp.nfc_tag_load = nfp.nfc_tag_load)
    ∧ (∀ (nfp : Interface) (u : IUser), u.has_attached_handle = true →
        (u.GetDeviceState nfp).nfp.nfc_tag_load = nfp.nfc_tag_load)
    ∧ (∀ (nfp : Interface) (u : IUser),
        (u.GetDeviceState nfp).nfp.nfc_tag_load.signaled = true →
          nfp.nfc_tag_load.signaled = true)
    ∧ (∀ (nfp : Interface) (b : List u8), b.length < B.sizeof_AmiiboFile →
        (nfp.LoadAmiibo B b).nfc_tag_load = nfp.nfc_tag_load)
    ∧ (∀ (nfp : Interface) (b : List u8), B.sizeof_AmiiboFile ≤ b.length →
        (nfp.LoadAmiibo B b).nfc_tag_load.signaled = true)
    ∧ ((((w.LoadAmiibo B buffer).CreateUserInterface.1.run B as).request B w.sessions.length
          .GetDeviceState).2
        = some { result := .RESULT_SUCCESS, raw := [DeviceState.TagFound.toU32] })
    ∧ (∃ u, (((w.LoadAmiibo B buffer).CreateUserInterface.1.run B as).request B
          w.sessions.length .GetDeviceState).1.sessions[w.sessions.length]? = some u
        ∧ u.device_state = .TagFound) := by
  refine ⟨?_, ?_, ?_, ?_, ?_, ?_⟩
  · intro nfp u c hc
    rw [handle_nfp_of_ne B nfp u c hc]
  · intro nfp u hu
    rw [GetDeviceState_of_idle nfp u (Or.inr hu)]
  · intro nfp u h
    by_cases hs : nfp.nfc_tag_load.signaled = true
    · exact hs
    · have hs1 : nfp.nfc_tag_load.signaled = false := by simpa using hs
      rw [GetDeviceState_of_idle nfp u (Or.inl hs1)] at h
      exact h
  · intro nfp b hb
    simp [Interface.LoadAmiibo, hb]
  · intro nfp b hb
    have hnot : ¬ b.length < B.sizeof_AmiiboFile := Nat.not_lt.mpr hb
    simp [Interface.LoadAmiibo, hnot, Event.Signal]
  · have hnot : ¬ buffer.length < B.sizeof_AmiiboFile := Nat.not_lt.mpr hlen
    have hs : (w.LoadAmiibo B buffer).CreateUserInterface.1.nfp.nfc_tag_load.signaled
        = true := by
      simp [World.CreateUserInterface, World.LoadAmiibo, Interface.LoadAmiibo, hnot,
        Event.Signal]
    have hu : ∃ u, (w.LoadAmiibo B buffer).CreateUserInterface.1.sessions[w.sessions.length]?
        = some u ∧ u.has_attached_handle = false :=
      ⟨IUser.new, by simp [World.CreateUserInterface, World.LoadAmiibo], rfl⟩
    obtain ⟨hs3, u, hu3, hf3⟩ := world_run_pending B w.sessions.length as
      (w.LoadAmiibo B buffer).CreateUserInterface.1 hg hk hs hu
    have hr := request_of_getElem B ((w.LoadAmiibo B buffer).CreateUserInterface.1.run B as)
      w.sessions.length .GetDeviceState u hu3
    simp only [IUser.handle] at hr
    rw [GetDeviceState_of_signaled _ u hf3 hs3] at hr
    rw [hr]
    refine ⟨rfl, { u with device_state := .TagFound }, ?_, rfl⟩
    exact List.getElem?_set_self (lt_length_of_getElem hu3)

/-- A load on a new interface, then the first session, on which detection is started and
`Mount` is served before it is asked for its device state. -/
theorem nfc_tag_load_pending_witness :
    Build.x64.sizeof_AmiiboFile ≤ (List.replicate 0x94 (1 : u8)).length
    ∧ (∀ a ∈ [WorldAction.request 0 .StartDetection, WorldAction.request 0 .Mount],
        a.isGetDeviceState = false)
    ∧ (∀ a ∈ [WorldAction.request 0 .StartDetection, WorldAction.request 0 .Mount],
        a.isAttachActivateOn (World.new Build.x64).sessions.length = false)
    ∧ (((((World.new Build.x64).LoadAmiibo Build.x64
            (List.replicate 0x94 1)).CreateUserInterface.1.run Build.x64
          [WorldAction.request 0 .StartDetection, WorldAction.request 0 .Mount]).request
            Build.x64 (World.new Build.x64).sessions.length .GetDeviceState).2
        = some { result := .RESULT_SUCCESS, raw := [DeviceState.TagFound.toU32] }) :=
  have h1 : Build.x64.sizeof_AmiiboFile ≤ (List.replicate 0x94 (1 : u8)).length := by
    simp [Build.x64]
  have h2 : ∀ a ∈ [WorldAction.request 0 .StartDetection, WorldAction.request 0 .Mount],
      a.isGetDeviceState = false := by
    intro a ha
    simp only [List.mem_cons, List.mem_singleton, List.not_mem_nil, or_false] at ha
    rcases ha with rfl | rfl <;> rfl
  have h3 : ∀ a ∈ [WorldAction.request 0 .StartDetection, WorldAction.request 0 .Mount],
      a.isAttachActivateOn (World.new Build.x64).sessions.length = false := by
    intro a ha
    simp only [List.mem_cons, List.mem_singleton, List.not_mem_nil, or_false] at ha
    rcases ha with rfl | rfl <;> rfl
  ⟨h1, h2, h3, (nfc_tag_load_pending Build.x64 (World.new Build.x64) (List.replicate 0x94 1)
      [WorldAction.request 0 .StartDetection, WorldAction.request 0 .Mount]
      h1 h2 h3).2.2.2.2.2.1⟩


end Service.NFP
